import Mathlib

/-!
The noise estimator and the LV2 plugin shell of noise-repellent.

A shallow embedding of

* `src/subprojects/libnrepel/src/denoiser/noisemodel/noise_estimator.c`
  (the noise estimator: manual rolling mean and adaptive strategy), and
* `src/plugins/nrepellent.c` (the LV2 shell: control ports, parameter
  snapshot, state save and restore).

Conventions of the embedding.

* C `float` values are exact rationals (`ℚ`): the arithmetic of the rolling
  mean is the arithmetic of the source with rounding left out.
* C arrays are lists; `a[k]` is `a.getD k 0` and `a[k] = v` is `a.set k v`.
* A pointer that may be `NULL` is an `Option`.
* Functions of the repository that the translated files call but that live in
  files which are not part of the sources at hand are either fields of
  `Collaborators` (they stay arbitrary) or small definitions whose doc comment
  starts with "Modelled from the spec".
-/

namespace NoiseRepellent

/-! ## Noise estimator (`noise_estimator.c`) -/

/-- Modelled from the spec: the `NoiseProfile` object of `noise_profile.c`, which
is not among the sources. The spec (section 3) describes it as an ordered
sequence of `half_fft_size + 1` floats plus an integer `blocks_averaged`
counter; the size is fixed at creation. -/
structure NoiseProfile where
  noise_profile_size : Nat
  noise_profile_blocks_averaged : Nat
  noise_profile : List ℚ
deriving DecidableEq, Repr

/-- Modelled from the spec: `increment_blocks_averaged` of `noise_profile.c`
(not among the sources). The spec says the manual mode "increments
`blocks_averaged`", an integer counter; it adds one. The spec gives the counter
no width, so no wrap-around is modelled. -/
def increment_blocks_averaged (self : NoiseProfile) : NoiseProfile :=
  { self with noise_profile_blocks_averaged := self.noise_profile_blocks_averaged + 1 }

/-- Modelled from the spec: `get_noise_profile_blocks_averaged` of
`noise_profile.c` (not among the sources), the getter of the counter. -/
def get_noise_profile_blocks_averaged (self : NoiseProfile) : Nat :=
  self.noise_profile_blocks_averaged

/-- Modelled from the spec: `get_noise_profile` of `noise_profile.c` (not among
the sources), the getter of the bin array. -/
def get_noise_profile (self : NoiseProfile) : List ℚ :=
  self.noise_profile

/-- Modelled from the spec: the `ProcessorParameters` type is declared in a
header that is not among the sources. `noise_estimator.c` reads only
`adaptive_noise_learn`; `learn_noise` is the flag of the spec's parameter
snapshot. -/
structure ProcessorParameters where
  learn_noise : Bool
  adaptive_noise_learn : Bool
deriving DecidableEq, Repr

/-- What `noise_estimator.c` uses from files that are not among the sources:
the constant `MIN_NUMBER_OF_WINDOWS_NOISE_AVERAGED` (`configurations.h`), the
power spectrum that `compute_power_spectrum` leaves in the spectral features
for `get_power_spectrum` (`spectral_features.c`; a pure function of the frame
by the spec, section 4.2), and the adaptive estimator (`louizou_estimator.c`)
with its own state type `L`. The adaptive estimator receives its state, the
reference spectrum and the bin array of the profile, and can change only its
state and the bin array. -/
structure Collaborators (L : Type) where
  MIN_NUMBER_OF_WINDOWS_NOISE_AVERAGED : Nat
  compute_power_spectrum : List ℚ → Nat → List ℚ
  louizou_estimator_initialize : Nat → Nat → Nat → L
  louizou_estimator_run : L → List ℚ → List ℚ → L × List ℚ

/-- The `struct NoiseEstimator`. The pointers `parameters` and `noise_profile` are
shared with the rest of the engine; the embedding keeps the objects they point
to inside the state. `power_spectrum` is the buffer of `spectral_features`. -/
structure NoiseEstimator (L : Type) where
  fft_size : Nat
  half_fft_size : Nat
  noise_spectrum_available : Bool
  power_spectrum : List ℚ
  parameters : ProcessorParameters
  noise_profile : NoiseProfile
  adaptive_estimator : L

/-- The function `noise_estimation_initialize`. -/
def noise_estimation_initialize {L : Type} (C : Collaborators L) (fft_size sample_rate : Nat)
    (noise_profile : NoiseProfile) (parameters : ProcessorParameters) : NoiseEstimator L :=
  { fft_size := fft_size
    half_fft_size := fft_size / 2
    noise_spectrum_available := false
    noise_profile := noise_profile
    parameters := parameters
    power_spectrum := List.replicate (fft_size / 2 + 1) 0
    adaptive_estimator := C.louizou_estimator_initialize (fft_size / 2 + 1) sample_rate fft_size }

/-- The function `is_noise_estimation_available`. -/
def is_noise_estimation_available {L : Type} (self : NoiseEstimator L) : Bool :=
  self.noise_spectrum_available

/-- One iteration of the loop of `get_rolling_mean_noise_spectrum`, at bin `k`. -/
def rolling_mean_bin (blocks_averaged : Nat) (spectrum noise_spectrum : List ℚ) (k : Nat) :
    List ℚ :=
  if blocks_averaged ≤ 1 then
    noise_spectrum.set k (spectrum.getD k 0)
  else
    noise_spectrum.set k
      (noise_spectrum.getD k 0 +
        (spectrum.getD k 0 - noise_spectrum.getD k 0) / (blocks_averaged : ℚ))

/-- The function `get_rolling_mean_noise_spectrum`: the loop
`for (k = 1; k <= half_fft_size; k++)` over the bins. -/
def get_rolling_mean_noise_spectrum {L : Type} (self : NoiseEstimator L)
    (spectrum noise_spectrum : List ℚ) : List ℚ :=
  (List.range' 1 self.half_fft_size).foldl
    (fun ns k =>
      rolling_mean_bin (get_noise_profile_blocks_averaged self.noise_profile) spectrum ns k)
    noise_spectrum

/-- The function `noise_estimation_run`. The result is the returned `bool` and the
estimator after the call (`none` when `self` is `NULL`). -/
def noise_estimation_run {L : Type} (C : Collaborators L) (self : Option (NoiseEstimator L))
    (fft_spectrum : Option (List ℚ)) : Bool × Option (NoiseEstimator L) :=
  match self, fft_spectrum with
  | some self, some fft_spectrum =>
    let self := { self with noise_profile := increment_blocks_averaged self.noise_profile }
    let self :=
      { self with power_spectrum := C.compute_power_spectrum fft_spectrum self.fft_size }
    let noise_profile := get_noise_profile self.noise_profile
    let reference_spectrum := self.power_spectrum
    let self :=
      if self.parameters.adaptive_noise_learn then
        let r := C.louizou_estimator_run self.adaptive_estimator reference_spectrum noise_profile
        { self with
          adaptive_estimator := r.1
          noise_profile := { self.noise_profile with noise_profile := r.2 } }
      else
        { self with
          noise_profile :=
            { self.noise_profile with
              noise_profile :=
                get_rolling_mean_noise_spectrum self reference_spectrum noise_profile } }
    let self :=
      if get_noise_profile_blocks_averaged self.noise_profile >
            C.MIN_NUMBER_OF_WINDOWS_NOISE_AVERAGED ∨
          self.parameters.adaptive_noise_learn then
        { self with noise_spectrum_available := true }
      else self
    (true, some self)
  | _, _ => (false, self)

/-- One processed block as the estimator sees it: the value of
`adaptive_noise_learn` in the shared parameters when the block is processed,
and the frame handed to `noise_estimation_run`. -/
structure Block where
  adaptive_noise_learn : Bool
  fft_spectrum : List ℚ

/-- A run of successful calls: before each call the engine has written the
block's `adaptive_noise_learn` into the shared parameters, then
`noise_estimation_run` is called with both pointers present. -/
def run_blocks {L : Type} (C : Collaborators L) (self : NoiseEstimator L) :
    List Block → Option (NoiseEstimator L)
  | [] => some self
  | b :: bs =>
    match noise_estimation_run C
        (some { self with
                parameters :=
                  { self.parameters with adaptive_noise_learn := b.adaptive_noise_learn } })
        (some b.fft_spectrum) with
    | (true, some next) => run_blocks C next bs
    | _ => none

/-- A block of the manual rolling-mean mode (adaptive strategy inactive). -/
def manual_block (fft_spectrum : List ℚ) : Block :=
  { adaptive_noise_learn := false, fft_spectrum := fft_spectrum }

/-- A concrete instance of the collaborators, used to evaluate the code on
explicit inputs: a minimum window of 5 blocks, a power spectrum that squares
each value of the frame, and an adaptive estimator whose state counts its runs
and which moves every bin halfway to the reference spectrum. -/
def demo_collaborators : Collaborators Nat :=
  { MIN_NUMBER_OF_WINDOWS_NOISE_AVERAGED := 5
    compute_power_spectrum := fun fft_spectrum _ => fft_spectrum.map (fun x => x * x)
    louizou_estimator_initialize := fun _ _ _ => 0
    louizou_estimator_run := fun st spectrum noise =>
      (st + 1, List.zipWith (fun n p => (n + p) / 2) noise spectrum) }

/-- A reset profile with three bins (FFT size 4). -/
def demo_profile : NoiseProfile :=
  { noise_profile_size := 3, noise_profile_blocks_averaged := 0, noise_profile := [0, 0, 0] }

/-- A freshly initialised estimator over `demo_profile`, manual mode. -/
def demo_estimator : NoiseEstimator Nat :=
  noise_estimation_initialize demo_collaborators 4 44100 demo_profile
    { learn_noise := true, adaptive_noise_learn := false }

/-! ## LV2 plugin shell (`nrepellent.c`) -/

/-- The macro `NOISEREPELLENT_URI`. -/
def NOISEREPELLENT_URI : String := "https://github.com/lucianodato/noise-repellent"

/-- The macro `NOISEREPELLENT_STEREO_URI`. -/
def NOISEREPELLENT_STEREO_URI : String :=
  "https://github.com/lucianodato/noise-repellent-stereo"

/-- The URI `LV2_ATOM__Int` of the LV2 atom header. -/
def LV2_ATOM__Int : String := "http://lv2plug.in/ns/ext/atom#Int"

/-- The URI `LV2_ATOM__Float` of the LV2 atom header. -/
def LV2_ATOM__Float : String := "http://lv2plug.in/ns/ext/atom#Float"

/-- The URI `LV2_ATOM__Vector` of the LV2 atom header. -/
def LV2_ATOM__Vector : String := "http://lv2plug.in/ns/ext/atom#Vector"

/-- The URI `LV2_ATOM__URID` of the LV2 atom header. -/
def LV2_ATOM__URID : String := "http://lv2plug.in/ns/ext/atom#URID"

/-- An `LV2_URID`: an unsigned integer handed out by the host for a URI. -/
abbrev LV2_URID := Nat

/-- The host's `LV2_URID_Map`: `map->map(map->handle, uri)`. -/
abbrev LV2_URID_Map := String → LV2_URID

/-- The C test `strcmp(a, b) == 0`. -/
def strcmp_eq (a b : String) : Bool := a == b

/-- The C test `strstr(haystack, needle) != NULL`: `needle` occurs in `haystack`. -/
def strstr (haystack needle : String) : Bool :=
  decide (needle.toList <:+: haystack.toList)

/-- The size of a C `float` in bytes. -/
def sizeof_float : Nat := 4

/-- The size of a C `uint32_t` in bytes. -/
def sizeof_uint32_t : Nat := 4

/-- The flags `LV2_STATE_IS_POD | LV2_STATE_IS_PORTABLE` of the LV2 state header. -/
def LV2_STATE_IS_POD_PORTABLE : Nat := 3

/-- The `LV2_State_Status` values that the plugin returns. -/
inductive LV2_State_Status where
  | LV2_STATE_SUCCESS
  | LV2_STATE_ERR_NO_PROPERTY
deriving DecidableEq, Repr

/-- The `struct NoiseProfileState`. -/
structure NoiseProfileState where
  child_size : Nat
  child_type : Nat
  elements : List ℚ
deriving DecidableEq, Repr

/-- The function `noise_profile_state_initialize`. -/
def noise_profile_state_initialize (child_type : LV2_URID) (noise_profile_size : Nat) :
    NoiseProfileState :=
  { child_type := child_type
    child_size := sizeof_float
    elements := List.replicate noise_profile_size 0 }

/-- The `struct URIs`. -/
structure URIs where
  atom_Int : LV2_URID
  atom_Float : LV2_URID
  atom_Vector : LV2_URID
  plugin : LV2_URID
  atom_URID : LV2_URID
deriving DecidableEq, Repr

/-- The `struct State`. -/
structure State where
  property_noise_profile_1 : LV2_URID
  property_noise_profile_2 : LV2_URID
  property_noise_profile_size : LV2_URID
  property_averaged_blocks : LV2_URID
deriving DecidableEq, Repr

/-- The function `map_uris`. `strcmp(uri, NOISEREPELLENT_URI)` is non-zero when the
strings differ, and then the first branch of the conditional is taken. -/
def map_uris (map : LV2_URID_Map) (uri : String) : URIs :=
  { plugin :=
      if !strcmp_eq uri NOISEREPELLENT_URI then map NOISEREPELLENT_URI
      else map NOISEREPELLENT_STEREO_URI
    atom_Int := map LV2_ATOM__Int
    atom_Float := map LV2_ATOM__Float
    atom_Vector := map LV2_ATOM__Vector
    atom_URID := map LV2_ATOM__URID }

/-- The function `map_state`, on the `State` it is given (all zero after `calloc`).
`!strcmp(uri, NOISEREPELLENT_URI)` holds when the strings are equal. -/
def map_state (map : LV2_URID_Map) (state : State) (uri : String) : State :=
  if strcmp_eq uri NOISEREPELLENT_URI then
    { property_noise_profile_1 := map (NOISEREPELLENT_STEREO_URI ++ "#noiseprofile")
      property_noise_profile_2 := map (NOISEREPELLENT_STEREO_URI ++ "#noiseprofile")
      property_noise_profile_size := map (NOISEREPELLENT_STEREO_URI ++ "#noiseprofilesize")
      property_averaged_blocks :=
        map (NOISEREPELLENT_STEREO_URI ++ "#noiseprofileaveragedblocks") }
  else
    { state with
      property_noise_profile_1 := map (NOISEREPELLENT_URI ++ "#noiseprofile")
      property_noise_profile_size := map (NOISEREPELLENT_URI ++ "#noiseprofilesize")
      property_averaged_blocks := map (NOISEREPELLENT_URI ++ "#noiseprofileaveragedblocks") }

/-- The `enum PortIndex`: `NOISEREPELLENT_AMOUNT`. -/
def NOISEREPELLENT_AMOUNT : Nat := 0
/-- The `enum PortIndex`: `NOISEREPELLENT_NOISE_OFFSET`. -/
def NOISEREPELLENT_NOISE_OFFSET : Nat := 1
/-- The `enum PortIndex`: `NOISEREPELLENT_RELEASE`. -/
def NOISEREPELLENT_RELEASE : Nat := 2
/-- The `enum PortIndex`: `NOISEREPELLENT_MASKING`. -/
def NOISEREPELLENT_MASKING : Nat := 3
/-- The `enum PortIndex`: `NOISEREPELLENT_TRANSIENT_PROTECT`. -/
def NOISEREPELLENT_TRANSIENT_PROTECT : Nat := 4
/-- The `enum PortIndex`: `NOISEREPELLENT_WHITENING`. -/
def NOISEREPELLENT_WHITENING : Nat := 5
/-- The `enum PortIndex`: `NOISEREPELLENT_NOISE_LEARN`. -/
def NOISEREPELLENT_NOISE_LEARN : Nat := 6
/-- The `enum PortIndex`: `NOISEREPELLENT_RESIDUAL_LISTEN`. -/
def NOISEREPELLENT_RESIDUAL_LISTEN : Nat := 7
/-- The `enum PortIndex`: `NOISEREPELLENT_RESET_NOISE_PROFILE`. -/
def NOISEREPELLENT_RESET_NOISE_PROFILE : Nat := 8
/-- The `enum PortIndex`: `NOISEREPELLENT_ENABLE`. -/
def NOISEREPELLENT_ENABLE : Nat := 9
/-- The `enum PortIndex`: `NOISEREPELLENT_LATENCY`. -/
def NOISEREPELLENT_LATENCY : Nat := 10
/-- The `enum PortIndex`: `NOISEREPELLENT_INPUT_1`. -/
def NOISEREPELLENT_INPUT_1 : Nat := 11
/-- The `enum PortIndex`: `NOISEREPELLENT_OUTPUT_1`. -/
def NOISEREPELLENT_OUTPUT_1 : Nat := 12
/-- The `enum PortIndex`: `NOISEREPELLENT_INPUT_2`. -/
def NOISEREPELLENT_INPUT_2 : Nat := 13
/-- The `enum PortIndex`: `NOISEREPELLENT_OUTPUT_2`. -/
def NOISEREPELLENT_OUTPUT_2 : Nat := 14

/-- The parameter snapshot `NrepelDenoiseParameters` of `nrepel.h` (the header is not
among the sources); its fields are those that the designated initialiser in
`run` names. -/
structure NrepelDenoiseParameters where
  enable : Bool
  learn_noise : Bool
  residual_listen : Bool
  masking_ceiling_limit : ℚ
  reduction_amount : ℚ
  noise_rescale : ℚ
  release_time : ℚ
  transient_threshold : ℚ
  whitening_factor : ℚ
deriving DecidableEq, Repr

/-- What `nrepellent.c` uses from outside the sources at hand: the engine library
behind `nrepel.h`, with `E` the state behind a `NoiseRepellentHandle`, and the
size in bytes of `struct NoiseProfileState` on the target (two `uint32_t` and a
pointer). `nrepel_process` maps the engine and the input samples to the engine
and the output samples. -/
structure Externals (E : Type) where
  sizeof_NoiseProfileState : Nat
  nrepel_initialize : Nat → Option E
  nrepel_get_latency : E → Nat
  nrepel_load_parameters : E → NrepelDenoiseParameters → E
  nrepel_reset_noise_profile : E → E
  nrepel_process : E → Nat → List ℚ → E × List ℚ
  nrepel_noise_profile_available : E → Bool
  nrepel_get_noise_profile_size : E → Nat
  nrepel_get_noise_profile_blocks_averaged : E → Nat
  nrepel_get_noise_profile : E → List ℚ
  nrepel_load_noise_profile : E → List ℚ → Nat → Nat → Bool × E

/-- Host memory holding `float` values, by address. Port pointers are addresses;
`NULL` is `none`. -/
abbrev Memory := Nat → ℚ

/-- The `n` floats at address `p`. -/
def read_buffer (mem : Memory) (p n : Nat) : List ℚ :=
  (List.range n).map (fun i => mem (p + i))

/-- Memory after the floats `data` are written at address `p`. -/
def write_buffer (mem : Memory) (p : Nat) (data : List ℚ) : Memory :=
  fun a => if p ≤ a ∧ a < p + data.length then data.getD (a - p) 0 else mem a

/-- The C conversion `(bool)x` of a `float`. -/
def float_to_bool (x : ℚ) : Bool := decide (x ≠ 0)

/-- The `struct NoiseRepellentAdaptivePlugin` of a successfully instantiated
plugin: `lib_instance_1` and `noise_profile_state_1` are present, the second
instance and state are `NULL` (`none`) unless the plugin is stereo. The logger
and the stored map pointer are left out. -/
structure NoiseRepellentAdaptivePlugin (E : Type) where
  input_1 : Option Nat
  input_2 : Option Nat
  output_1 : Option Nat
  output_2 : Option Nat
  sample_rate : Nat
  report_latency : Option Nat
  uris : URIs
  state : State
  plugin_uri : String
  lib_instance_1 : E
  lib_instance_2 : Option E
  parameters : NrepelDenoiseParameters
  noise_profile_state_1 : NoiseProfileState
  noise_profile_state_2 : Option NoiseProfileState
  enable : Option Nat
  learn_noise : Option Nat
  residual_listen : Option Nat
  reduction_amount : Option Nat
  release_time : Option Nat
  masking_ceiling_limit : Option Nat
  whitening_factor : Option Nat
  transient_threshold : Option Nat
  noise_rescale : Option Nat
  reset_noise_profile : Option Nat

/-- The host features that `instantiate` queries: the required URID map. -/
structure Features where
  map : Option LV2_URID_Map

/-- The function `instantiate`; `none` is the `NULL` handle. All fields that the
function does not assign are zero (`calloc`). -/
def instantiate {E : Type} (X : Externals E) (descriptor_URI : String) (rate : Nat)
    (features : Features) : Option (NoiseRepellentAdaptivePlugin E) :=
  match features.map with
  | none => none
  | some map =>
    let plugin_uri := descriptor_URI
    let uris := map_uris map plugin_uri
    let state := map_state map
      { property_noise_profile_1 := 0, property_noise_profile_2 := 0,
        property_noise_profile_size := 0, property_averaged_blocks := 0 } plugin_uri
    match X.nrepel_initialize rate with
    | none => none
    | some lib_instance_1 =>
      let self : NoiseRepellentAdaptivePlugin E :=
        { input_1 := none, input_2 := none, output_1 := none, output_2 := none
          sample_rate := rate
          report_latency := none
          uris := uris
          state := state
          plugin_uri := plugin_uri
          lib_instance_1 := lib_instance_1
          lib_instance_2 := none
          parameters :=
            { enable := false, learn_noise := false, residual_listen := false,
              masking_ceiling_limit := 0, reduction_amount := 0, noise_rescale := 0,
              release_time := 0, transient_threshold := 0, whitening_factor := 0 }
          noise_profile_state_1 :=
            noise_profile_state_initialize uris.atom_Float
              (X.nrepel_get_noise_profile_size lib_instance_1)
          noise_profile_state_2 := none
          enable := none, learn_noise := none, residual_listen := none
          reduction_amount := none, release_time := none, masking_ceiling_limit := none
          whitening_factor := none, transient_threshold := none, noise_rescale := none
          reset_noise_profile := none }
      if strstr plugin_uri NOISEREPELLENT_STEREO_URI then
        match X.nrepel_initialize rate with
        | none => none
        | some lib_instance_2 =>
          some
            { self with
              lib_instance_2 := some lib_instance_2
              noise_profile_state_2 :=
                some ( noise_profile_state_initialize uris.atom_Float
                  (X.nrepel_get_noise_profile_size lib_instance_2)) }
      else some self

/-- The function `connect_port`; `data` is the address the host connects to `port`. -/
def connect_port {E : Type} (self : NoiseRepellentAdaptivePlugin E) (port : Nat) (data : Nat) :
    NoiseRepellentAdaptivePlugin E :=
  if port = NOISEREPELLENT_AMOUNT then { self with reduction_amount := some data }
  else if port = NOISEREPELLENT_NOISE_OFFSET then { self with noise_rescale := some data }
  else if port = NOISEREPELLENT_RELEASE then { self with release_time := some data }
  else if port = NOISEREPELLENT_MASKING then { self with masking_ceiling_limit := some data }
  else if port = NOISEREPELLENT_WHITENING then { self with whitening_factor := some data }
  else if port = NOISEREPELLENT_TRANSIENT_PROTECT then
    { self with transient_threshold := some data }
  else if port = NOISEREPELLENT_NOISE_LEARN then { self with learn_noise := some data }
  else if port = NOISEREPELLENT_RESET_NOISE_PROFILE then
    { self with reset_noise_profile := some data }
  else if port = NOISEREPELLENT_RESIDUAL_LISTEN then { self with residual_listen := some data }
  else if port = NOISEREPELLENT_ENABLE then { self with enable := some data }
  else if port = NOISEREPELLENT_LATENCY then { self with report_latency := some data }
  else if port = NOISEREPELLENT_INPUT_1 then { self with input_1 := some data }
  else if port = NOISEREPELLENT_OUTPUT_1 then { self with output_1 := some data }
  else self

/-- The function `connect_port_stereo`. -/
def connect_port_stereo {E : Type} (self : NoiseRepellentAdaptivePlugin E) (port : Nat)
    (data : Nat) : NoiseRepellentAdaptivePlugin E :=
  let self := connect_port self port data
  if port = NOISEREPELLENT_INPUT_2 then { self with input_2 := some data }
  else if port = NOISEREPELLENT_OUTPUT_2 then { self with output_2 := some data }
  else self

/-- The function `run`: the plugin and the host memory after the block. The
result is `none` when a port that `run` dereferences is not connected (a `NULL`
dereference in C). -/
def run {E : Type} (X : Externals E) (self : NoiseRepellentAdaptivePlugin E) (mem : Memory)
    (number_of_samples : Nat) : Option (NoiseRepellentAdaptivePlugin E × Memory) := do
  let enable ← self.enable
  let learn_noise ← self.learn_noise
  let residual_listen ← self.residual_listen
  let masking_ceiling_limit ← self.masking_ceiling_limit
  let reduction_amount ← self.reduction_amount
  let noise_rescale ← self.noise_rescale
  let transient_threshold ← self.transient_threshold
  let whitening_factor ← self.whitening_factor
  let self :=
    { self with
      parameters :=
        { enable := float_to_bool (mem enable)
          learn_noise := float_to_bool (mem learn_noise)
          residual_listen := float_to_bool (mem residual_listen)
          masking_ceiling_limit := mem masking_ceiling_limit
          reduction_amount := mem reduction_amount
          noise_rescale := mem noise_rescale
          release_time := mem reduction_amount
          transient_threshold := mem transient_threshold
          whitening_factor := mem whitening_factor } }
  let self :=
    { self with
      lib_instance_1 := X.nrepel_load_parameters self.lib_instance_1 self.parameters }
  let reset_noise_profile ← self.reset_noise_profile
  let self :=
    { self with
      lib_instance_1 :=
        if float_to_bool (mem reset_noise_profile) then
          X.nrepel_reset_noise_profile self.lib_instance_1
        else self.lib_instance_1 }
  let input_1 ← self.input_1
  let output_1 ← self.output_1
  let processed :=
    X.nrepel_process self.lib_instance_1 number_of_samples
      (read_buffer mem input_1 number_of_samples)
  some ({ self with lib_instance_1 := processed.1 }, write_buffer mem output_1 processed.2)

/-- The function `run_stereo`. -/
def run_stereo {E : Type} (X : Externals E) (self : NoiseRepellentAdaptivePlugin E)
    (mem : Memory) (number_of_samples : Nat) :
    Option (NoiseRepellentAdaptivePlugin E × Memory) := do
  let r ← run X self mem number_of_samples
  let self := r.1
  let mem := r.2
  let lib_instance_2 ← self.lib_instance_2
  let lib_instance_2 := X.nrepel_load_parameters lib_instance_2 self.parameters
  let reset_noise_profile ← self.reset_noise_profile
  let lib_instance_2 :=
    if float_to_bool (mem reset_noise_profile) then X.nrepel_reset_noise_profile lib_instance_2
    else lib_instance_2
  let input_2 ← self.input_2
  let output_2 ← self.output_2
  let processed :=
    X.nrepel_process lib_instance_2 number_of_samples
      (read_buffer mem input_2 number_of_samples)
  some ({ self with lib_instance_2 := some processed.1 }, write_buffer mem output_2 processed.2)

/-- A value of the host's state store as `restore` reads it: `as_uint32` is the
`uint32_t` at the start of the value (`*fftsize`, `*averagedblocks`), and
`atom_body` the floats that start at `LV2_ATOM_BODY`, eight bytes into the
value. -/
structure Blob where
  as_uint32 : Nat
  atom_body : List ℚ
deriving DecidableEq, Repr

/-- A property of the host's state store: what `store` receives and what
`retrieve` hands back (value, size in bytes, type, flags) under a key. -/
structure Property where
  key : LV2_URID
  value : Blob
  size : Nat
  type : LV2_URID
  flags : Nat
deriving DecidableEq, Repr

/-- The value that `store` reads at the address of a `uint32_t`. -/
def blob_of_uint32 (n : Nat) : Blob :=
  { as_uint32 := n, atom_body := [] }

/-- The value that `store` reads at the address of a `NoiseProfileState`: it starts
with `child_size` and `child_type`. The struct holds a pointer to the elements;
the body is taken to be the elements themselves, the layout that the comment
"LV2 Atoms Vector Specification" on the struct names. -/
def blob_of_noise_profile_state (s : NoiseProfileState) : Blob :=
  { as_uint32 := s.child_size, atom_body := s.elements }

/-- The C call `memcpy(dest, src, sizeof(float) * n)` on two arrays that hold at
least `n` floats. -/
def memcpy_floats (dest src : List ℚ) (n : Nat) : List ℚ :=
  src.take n ++ dest.drop n

/-- The result of `save`: the returned status, the plugin (its
`NoiseProfileState` buffers are written) and the `store` calls in order. -/
structure SaveResult (E : Type) where
  status : LV2_State_Status
  self : NoiseRepellentAdaptivePlugin E
  stored : List Property

/-- The function `save`. The result is `none` when the stereo branch dereferences a
`NULL` second instance or state. -/
def save {E : Type} (X : Externals E) (self : NoiseRepellentAdaptivePlugin E) :
    Option (SaveResult E) :=
  if !X.nrepel_noise_profile_available self.lib_instance_1 then
    some { status := .LV2_STATE_SUCCESS, self := self, stored := [] }
  else
    let noise_profile_size := X.nrepel_get_noise_profile_size self.lib_instance_1
    let stored : List Property :=
      [{ key := self.state.property_noise_profile_size
         value := blob_of_uint32 noise_profile_size
         size := sizeof_uint32_t
         type := self.uris.atom_Int
         flags := LV2_STATE_IS_POD_PORTABLE }]
    let noise_profile_averaged_blocks :=
      X.nrepel_get_noise_profile_blocks_averaged self.lib_instance_1
    let stored := stored ++
      [{ key := self.state.property_averaged_blocks
         value := blob_of_uint32 noise_profile_averaged_blocks
         size := sizeof_uint32_t
         type := self.uris.atom_Int
         flags := LV2_STATE_IS_POD_PORTABLE }]
    let self :=
      { self with
        noise_profile_state_1 :=
          { self.noise_profile_state_1 with
            elements :=
              memcpy_floats self.noise_profile_state_1.elements
                (X.nrepel_get_noise_profile self.lib_instance_1) noise_profile_size } }
    let stored := stored ++
      [{ key := self.state.property_noise_profile_1
         value := blob_of_noise_profile_state self.noise_profile_state_1
         size := sizeof_float * noise_profile_size
         type := self.uris.atom_Vector
         flags := LV2_STATE_IS_POD_PORTABLE }]
    if strstr self.plugin_uri NOISEREPELLENT_STEREO_URI then
      match self.lib_instance_2, self.noise_profile_state_2 with
      | some lib_instance_2, some noise_profile_state_2 =>
        let noise_profile_state_2 :=
          { noise_profile_state_2 with
            elements :=
              memcpy_floats noise_profile_state_2.elements
                (X.nrepel_get_noise_profile lib_instance_2) noise_profile_size }
        some
          { status := .LV2_STATE_SUCCESS
            self := { self with noise_profile_state_2 := some noise_profile_state_2 }
            stored := stored ++
              [{ key := self.state.property_noise_profile_2
                 value := blob_of_noise_profile_state noise_profile_state_2
                 size := sizeof_float * noise_profile_size
                 type := self.uris.atom_Vector
                 flags := LV2_STATE_IS_POD_PORTABLE }] }
      | _, _ => none
    else some { status := .LV2_STATE_SUCCESS, self := self, stored := stored }

/-- One call of `nrepel_load_noise_profile` made by `restore`: the instance (1 for
`lib_instance_1`, 2 for `lib_instance_2`) and the three arguments. -/
structure LoadCall where
  lib_instance : Nat
  restored_profile : List ℚ
  noise_profile_size : Nat
  averaged_blocks : Nat
deriving DecidableEq, Repr

/-- The result of `restore`: the returned status, the plugin with the engine
instances as `nrepel_load_noise_profile` left them, and the calls of
`nrepel_load_noise_profile` made, in order. -/
structure RestoreResult (E : Type) where
  status : LV2_State_Status
  self : NoiseRepellentAdaptivePlugin E
  load_calls : List LoadCall

/-- The function `restore`. `retrieve key` is the host's `retrieve` callback: `none`
for the `NULL` pointer, otherwise the value with the size and type that the
callback writes through its out-parameters. The value returned by
`nrepel_load_noise_profile` is discarded, as in the source. -/
def restore {E : Type} (X : Externals E) (self : NoiseRepellentAdaptivePlugin E)
    (retrieve : LV2_URID → Option Property) : RestoreResult E :=
  match retrieve self.state.property_noise_profile_size with
  | none => { status := .LV2_STATE_ERR_NO_PROPERTY, self := self, load_calls := [] }
  | some fftsize =>
    if fftsize.type ≠ self.uris.atom_Int then
      { status := .LV2_STATE_ERR_NO_PROPERTY, self := self, load_calls := [] }
    else
      match retrieve self.state.property_averaged_blocks with
      | none => { status := .LV2_STATE_ERR_NO_PROPERTY, self := self, load_calls := [] }
      | some averagedblocks =>
        if averagedblocks.type ≠ self.uris.atom_Int then
          { status := .LV2_STATE_ERR_NO_PROPERTY, self := self, load_calls := [] }
        else
          match retrieve self.state.property_noise_profile_1 with
          | none => { status := .LV2_STATE_ERR_NO_PROPERTY, self := self, load_calls := [] }
          | some saved_noise_profile_1 =>
            if saved_noise_profile_1.size ≠ X.sizeof_NoiseProfileState ∨
                saved_noise_profile_1.type ≠ self.uris.atom_Vector then
              { status := .LV2_STATE_ERR_NO_PROPERTY, self := self, load_calls := [] }
            else
              let self :=
                { self with
                  lib_instance_1 :=
                    (X.nrepel_load_noise_profile self.lib_instance_1
                      saved_noise_profile_1.value.atom_body fftsize.value.as_uint32
                      averagedblocks.value.as_uint32).2 }
              let load_calls : List LoadCall :=
                [{ lib_instance := 1
                   restored_profile := saved_noise_profile_1.value.atom_body
                   noise_profile_size := fftsize.value.as_uint32
                   averaged_blocks := averagedblocks.value.as_uint32 }]
              if strstr self.plugin_uri NOISEREPELLENT_STEREO_URI then
                match retrieve self.state.property_noise_profile_2 with
                | none =>
                  { status := .LV2_STATE_ERR_NO_PROPERTY, self := self,
                    load_calls := load_calls }
                | some saved_noise_profile_2 =>
                  if saved_noise_profile_2.size ≠ X.sizeof_NoiseProfileState ∨
                      saved_noise_profile_2.type ≠ self.uris.atom_Vector then
                    { status := .LV2_STATE_ERR_NO_PROPERTY, self := self,
                      load_calls := load_calls }
                  else
                    { status := .LV2_STATE_SUCCESS
                      self :=
                        { self with
                          lib_instance_2 :=
                            self.lib_instance_2.map fun e =>
                              (X.nrepel_load_noise_profile e
                                saved_noise_profile_2.value.atom_body
                                fftsize.value.as_uint32 averagedblocks.value.as_uint32).2 }
                      load_calls := load_calls ++
                        [{ lib_instance := 2
                           restored_profile := saved_noise_profile_2.value.atom_body
                           noise_profile_size := fftsize.value.as_uint32
                           averaged_blocks := averagedblocks.value.as_uint32 }] }
              else { status := .LV2_STATE_SUCCESS, self := self, load_calls := load_calls }

/-- The host's `retrieve` over the properties that `store` received: the value
stored last under the key. -/
def retrieve_from (stored : List Property) (key : LV2_URID) : Option Property :=
  stored.reverse.find? (fun p => p.key == key)

/-- Modelled from the spec: a stand-in for the engine behind `nrepel.h`, which is
not among the sources. It holds a noise profile, its availability and the
latest parameter snapshot (spec, section 3). -/
structure DemoEngine where
  noise_profile : NoiseProfile
  available : Bool
  parameters : NrepelDenoiseParameters
deriving DecidableEq, Repr

/-- Modelled from the spec: the capability surface of section 6 over `DemoEngine`,
for an engine with `bins` bins on a target where `struct NoiseProfileState`
takes `sizeof_state` bytes. `nrepel_load_noise_profile` "rejects (no-op,
signals mismatch) if `size` disagrees with `getNoiseProfileSize`";
`nrepel_load_parameters` is an "unconditional overwrite"; the reset zeroes the
bins and the counter. The audio is passed through. -/
def demo_externals (bins sizeof_state : Nat) : Externals DemoEngine :=
  { sizeof_NoiseProfileState := sizeof_state
    nrepel_initialize := fun _ =>
      some
        { noise_profile :=
            { noise_profile_size := bins, noise_profile_blocks_averaged := 0,
              noise_profile := List.replicate bins 0 }
          available := false
          parameters :=
            { enable := false, learn_noise := false, residual_listen := false,
              masking_ceiling_limit := 0, reduction_amount := 0, noise_rescale := 0,
              release_time := 0, transient_threshold := 0, whitening_factor := 0 } }
    nrepel_get_latency := fun _ => 0
    nrepel_load_parameters := fun e p => { e with parameters := p }
    nrepel_reset_noise_profile := fun e =>
      { e with
        noise_profile :=
          { e.noise_profile with
            noise_profile_blocks_averaged := 0
            noise_profile := List.replicate e.noise_profile.noise_profile_size 0 }
        available := false }
    nrepel_process := fun e _ input => (e, input)
    nrepel_noise_profile_available := fun e => e.available
    nrepel_get_noise_profile_size := fun e => e.noise_profile.noise_profile_size
    nrepel_get_noise_profile_blocks_averaged := fun e =>
      e.noise_profile.noise_profile_blocks_averaged
    nrepel_get_noise_profile := fun e => e.noise_profile.noise_profile
    nrepel_load_noise_profile := fun e restored_profile size averaged_blocks =>
      if size ≠ e.noise_profile.noise_profile_size then (false, e)
      else
        (true,
          { e with
            noise_profile :=
              { e.noise_profile with
                noise_profile_blocks_averaged := averaged_blocks
                noise_profile := restored_profile.take size } }) }

/-- A host URID map for the evaluations: the position of the URI in a table of the
URIs that the plugin maps, counted from 1. -/
def demo_map : LV2_URID_Map := fun uri =>
  [NOISEREPELLENT_URI, NOISEREPELLENT_STEREO_URI, LV2_ATOM__Int, LV2_ATOM__Float,
    LV2_ATOM__Vector, LV2_ATOM__URID,
    NOISEREPELLENT_URI ++ "#noiseprofile",
    NOISEREPELLENT_URI ++ "#noiseprofilesize",
    NOISEREPELLENT_URI ++ "#noiseprofileaveragedblocks",
    NOISEREPELLENT_STEREO_URI ++ "#noiseprofile",
    NOISEREPELLENT_STEREO_URI ++ "#noiseprofilesize",
    NOISEREPELLENT_STEREO_URI ++ "#noiseprofileaveragedblocks"].indexOf uri + 1

/-- The host connects the ports 0 to 12 of the mono plugin, port `i` to the
address `base + i`, each by one call of `connect_port`. -/
def connect_all_ports {E : Type} (self : NoiseRepellentAdaptivePlugin E) (base : Nat) :
    NoiseRepellentAdaptivePlugin E :=
  (List.range 13).foldl (fun p i => connect_port p i (base + i)) self

/-- Host memory for the evaluations: the amount port (address 100) holds 10, the
release port (address 102) holds 150, the enable port (address 109) holds 1,
every other address 0. -/
def demo_memory : Memory := fun a =>
  if a = 100 then 10 else if a = 102 then 150 else if a = 109 then 1 else 0

/-- An engine of five bins whose profile has been learned over nine blocks. -/
def demo_learned_engine : DemoEngine :=
  { noise_profile :=
      { noise_profile_size := 5, noise_profile_blocks_averaged := 9,
        noise_profile := [1, 2, 3, 4, 5] }
    available := true
    parameters :=
      { enable := true, learn_noise := false, residual_listen := false,
        masking_ceiling_limit := 0, reduction_amount := 10, noise_rescale := 0,
        release_time := 150, transient_threshold := 0, whitening_factor := 0 } }

/-- A persisted state for the stereo plugin over `demo_map` (keys 8, 9 and 7): bin
count 5, nine averaged blocks and the first channel's profile with the byte
size `restore` expects on a target with a 16-byte `NoiseProfileState`; no
property for the second channel. -/
def demo_state_without_second_profile : List Property :=
  [{ key := 8, value := blob_of_uint32 5, size := 4, type := 3, flags := 3 },
   { key := 9, value := blob_of_uint32 9, size := 4, type := 3, flags := 3 },
   { key := 7, value := { as_uint32 := 4, atom_body := [1, 2, 3, 4, 5] }, size := 16,
     type := 5, flags := 3 }]

/-- A persisted state for the mono plugin over `demo_map` (keys 11, 12 and 10) whose
stored bin count is `bins`; the three properties have the types and the byte
size that `restore` expects on a target with a 16-byte `NoiseProfileState`. -/
def demo_state_with_bin_count (bins : Nat) : List Property :=
  [{ key := 11, value := blob_of_uint32 bins, size := 4, type := 3, flags := 3 },
   { key := 12, value := blob_of_uint32 9, size := 4, type := 3, flags := 3 },
   { key := 10, value := { as_uint32 := 4, atom_body := List.replicate bins 1 }, size := 16,
     type := 5, flags := 3 }]

/-- The mono plugin as `instantiate` returns it over `demo_externals 5 16` and
`demo_map`. -/
def demo_mono_plugin : NoiseRepellentAdaptivePlugin DemoEngine :=
  (instantiate (demo_externals 5 16) NOISEREPELLENT_URI 44100 { map := some demo_map }).get rfl

/-- The stereo plugin as `instantiate` returns it over `demo_externals 5 16` and
`demo_map`. -/
def demo_stereo_plugin : NoiseRepellentAdaptivePlugin DemoEngine :=
  (instantiate (demo_externals 5 16) NOISEREPELLENT_STEREO_URI 44100
    { map := some demo_map }).get rfl
/-! ## Lemmas on the noise estimator -/

theorem rolling_mean_bin_length (b : Nat) (sp ns : List ℚ) (k : Nat) :
    (rolling_mean_bin b sp ns k).length = ns.length := by
  unfold rolling_mean_bin; split <;> simp

theorem rolling_mean_bin_getD (b : Nat) (sp ns : List ℚ) (k j : Nat) :
    (rolling_mean_bin b sp ns k).getD j 0 =
      if j = k ∧ k < ns.length then
        (if b ≤ 1 then sp.getD k 0
         else ns.getD k 0 + (sp.getD k 0 - ns.getD k 0) / (b : ℚ))
      else ns.getD j 0 := by
  unfold rolling_mean_bin
  by_cases hb : b ≤ 1 <;> simp only [hb, if_true, if_false] <;>
    simp only [List.getD_eq_getElem?_getD, List.getElem?_set] <;>
    by_cases hjk : j = k
  all_goals first
    | (subst hjk
       by_cases hk : j < ns.length
       · simp [hk]
       · simp [hk, List.getElem?_eq_none (Nat.le_of_not_lt hk)])
    | (have hkj : ¬ k = j := fun h => hjk h.symm
       simp [hjk, hkj])

theorem range_one_succ (n : Nat) : List.range' 1 (n + 1) = List.range' 1 n ++ [n + 1] := by
  rw [List.range'_concat]; simp [Nat.add_comm]

theorem rolling_loop_length (b : Nat) (sp : List ℚ) (n : Nat) (ns : List ℚ) :
    ((List.range' 1 n).foldl (fun ns k => rolling_mean_bin b sp ns k) ns).length =
      ns.length := by
  induction n with
  | zero => simp
  | succ n ih =>
    rw [range_one_succ, List.foldl_append]
    simp [rolling_mean_bin_length, ih]

theorem rolling_loop_getD (b : Nat) (sp : List ℚ) (n : Nat) (ns : List ℚ) (j : Nat) :
    ((List.range' 1 n).foldl (fun ns k => rolling_mean_bin b sp ns k) ns).getD j 0 =
      if 1 ≤ j ∧ j ≤ n ∧ j < ns.length then
        (if b ≤ 1 then sp.getD j 0
         else ns.getD j 0 + (sp.getD j 0 - ns.getD j 0) / (b : ℚ))
      else ns.getD j 0 := by
  induction n with
  | zero =>
    have h : ¬ (1 ≤ j ∧ j ≤ 0 ∧ j < ns.length) := by omega
    rw [if_neg h]; rfl
  | succ n ih =>
    rw [range_one_succ, List.foldl_append]
    simp only [List.foldl_cons, List.foldl_nil]
    rw [rolling_mean_bin_getD, rolling_loop_length]
    by_cases hj : j = n + 1
    · have h1 : ¬ (1 ≤ n + 1 ∧ n + 1 ≤ n ∧ n + 1 < ns.length) := by omega
      subst hj
      rw [ih, if_neg h1]
      by_cases hl : n + 1 < ns.length
      · have h2 : 1 ≤ n + 1 ∧ n + 1 ≤ n + 1 ∧ n + 1 < ns.length := by omega
        rw [if_pos h2, if_pos ⟨rfl, hl⟩]
      · have h2 : ¬ (1 ≤ n + 1 ∧ n + 1 ≤ n + 1 ∧ n + 1 < ns.length) := by omega
        have h3 : ¬ (n + 1 = n + 1 ∧ n + 1 < ns.length) := fun h => hl h.2
        rw [if_neg h2, if_neg h3]
    · have h0 : ¬ (j = n + 1 ∧ n + 1 < ns.length) := fun h => hj h.1
      rw [if_neg h0, ih]
      have h4 : (1 ≤ j ∧ j ≤ n ∧ j < ns.length) ↔ (1 ≤ j ∧ j ≤ n + 1 ∧ j < ns.length) := by
        omega
      simp only [h4]

theorem noise_estimation_run_manual {L : Type} (C : Collaborators L) (s : NoiseEstimator L)
    (f : List ℚ) (h : s.parameters.adaptive_noise_learn = false) :
    noise_estimation_run C (some s) (some f) =
      (true, some
        { s with
          power_spectrum := C.compute_power_spectrum f s.fft_size
          noise_profile :=
            { noise_profile_size := s.noise_profile.noise_profile_size
              noise_profile_blocks_averaged := s.noise_profile.noise_profile_blocks_averaged + 1
              noise_profile :=
                (List.range' 1 s.half_fft_size).foldl
                  (fun ns k =>
                    rolling_mean_bin (s.noise_profile.noise_profile_blocks_averaged + 1)
                      (C.compute_power_spectrum f s.fft_size) ns k)
                  s.noise_profile.noise_profile }
          noise_spectrum_available :=
            s.noise_spectrum_available ||
              decide (s.noise_profile.noise_profile_blocks_averaged + 1 >
                C.MIN_NUMBER_OF_WINDOWS_NOISE_AVERAGED) }) := by
  by_cases hm : s.noise_profile.noise_profile_blocks_averaged + 1 >
      C.MIN_NUMBER_OF_WINDOWS_NOISE_AVERAGED <;>
    simp [noise_estimation_run, h, hm, increment_blocks_averaged, get_noise_profile,
      get_noise_profile_blocks_averaged, get_rolling_mean_noise_spectrum]

theorem noise_estimation_run_adaptive {L : Type} (C : Collaborators L) (s : NoiseEstimator L)
    (f : List ℚ) (h : s.parameters.adaptive_noise_learn = true) :
    noise_estimation_run C (some s) (some f) =
      (true, some
        { s with
          power_spectrum := C.compute_power_spectrum f s.fft_size
          adaptive_estimator :=
            (C.louizou_estimator_run s.adaptive_estimator
              (C.compute_power_spectrum f s.fft_size) s.noise_profile.noise_profile).1
          noise_profile :=
            { noise_profile_size := s.noise_profile.noise_profile_size
              noise_profile_blocks_averaged := s.noise_profile.noise_profile_blocks_averaged + 1
              noise_profile :=
                (C.louizou_estimator_run s.adaptive_estimator
                  (C.compute_power_spectrum f s.fft_size) s.noise_profile.noise_profile).2 }
          noise_spectrum_available := true }) := by
  simp [noise_estimation_run, h, increment_blocks_averaged, get_noise_profile,
      get_noise_profile_blocks_averaged]

/-- What a successful call leaves in place and how it latches availability,
in either mode. -/
theorem call_counter_availability {L : Type} (C : Collaborators L) (s : NoiseEstimator L)
    (f : List ℚ) :
    ∃ s', noise_estimation_run C (some s) (some f) = (true, some s') ∧
      s'.noise_profile.noise_profile_blocks_averaged =
        s.noise_profile.noise_profile_blocks_averaged + 1 ∧
      s'.noise_spectrum_available =
        (s.noise_spectrum_available ||
          (decide (s.noise_profile.noise_profile_blocks_averaged + 1 >
              C.MIN_NUMBER_OF_WINDOWS_NOISE_AVERAGED) ||
            s.parameters.adaptive_noise_learn)) ∧
      s'.parameters = s.parameters ∧
      s'.fft_size = s.fft_size ∧
      s'.half_fft_size = s.half_fft_size := by
  by_cases h : s.parameters.adaptive_noise_learn = true
  · exact ⟨_, noise_estimation_run_adaptive C s f h, rfl, by simp [h], rfl, rfl, rfl⟩
  · have h' : s.parameters.adaptive_noise_learn = false := by simpa using h
    exact ⟨_, noise_estimation_run_manual C s f h', rfl, by simp [h'], rfl, rfl, rfl⟩

/-- A manual call keeps the FFT sizes and the number of bins. -/
theorem manual_call_frame {L : Type} (C : Collaborators L) (s s' : NoiseEstimator L)
    (f : List ℚ) (hmanual : s.parameters.adaptive_noise_learn = false)
    (hrun : noise_estimation_run C (some s) (some f) = (true, some s')) :
    s'.fft_size = s.fft_size ∧ s'.half_fft_size = s.half_fft_size ∧
      s'.noise_profile.noise_profile.length = s.noise_profile.noise_profile.length := by
  rw [noise_estimation_run_manual C s f hmanual] at hrun
  have h := Option.some.inj (Prod.mk.inj hrun).2
  rw [← h]
  exact ⟨rfl, rfl, rolling_loop_length _ _ _ _⟩

/-- Unfolding of `run_blocks` at a successful first call. -/
theorem run_blocks_cons {L : Type} (C : Collaborators L) (s s' : NoiseEstimator L) (b : Block)
    (bs : List Block)
    (hrun : noise_estimation_run C
        (some { s with
                parameters :=
                  { s.parameters with adaptive_noise_learn := b.adaptive_noise_learn } })
        (some b.fft_spectrum) = (true, some s')) :
    run_blocks C s (b :: bs) = run_blocks C s' bs := by
  simp [run_blocks, hrun]

/-- Counter, availability and current parameters after any run of successful
calls. -/
theorem run_blocks_counter_availability {L : Type} (C : Collaborators L) (bs : List Block) :
    ∀ s : NoiseEstimator L,
      ∃ s', run_blocks C s bs = some s' ∧
        s'.noise_profile.noise_profile_blocks_averaged =
          s.noise_profile.noise_profile_blocks_averaged + bs.length ∧
        (s'.noise_spectrum_available = true ↔
          (s.noise_spectrum_available = true ∨
            (bs ≠ [] ∧
              s.noise_profile.noise_profile_blocks_averaged + bs.length >
                C.MIN_NUMBER_OF_WINDOWS_NOISE_AVERAGED) ∨
            ∃ b ∈ bs, b.adaptive_noise_learn = true)) ∧
        s'.parameters.adaptive_noise_learn =
          ((bs.getLast?).map Block.adaptive_noise_learn).getD
            s.parameters.adaptive_noise_learn := by
  induction bs with
  | nil => intro s; exact ⟨s, rfl, rfl, by simp, rfl⟩
  | cons b bs ih =>
    intro s
    obtain ⟨s1, hrun, hc1, ha1, hp1, -, -⟩ :=
      call_counter_availability C
        { s with
          parameters :=
            { s.parameters with adaptive_noise_learn := b.adaptive_noise_learn } }
        b.fft_spectrum
    obtain ⟨s', hrest, hc, ha, hp⟩ := ih s1
    have hrun' := (run_blocks_cons C s s1 b bs hrun).trans hrest
    replace hc1 : s1.noise_profile.noise_profile_blocks_averaged =
        s.noise_profile.noise_profile_blocks_averaged + 1 := hc1
    replace ha1 : s1.noise_spectrum_available =
        (s.noise_spectrum_available ||
          (decide (s.noise_profile.noise_profile_blocks_averaged + 1 >
              C.MIN_NUMBER_OF_WINDOWS_NOISE_AVERAGED) ||
            b.adaptive_noise_learn)) := ha1
    replace hp1 : s1.parameters.adaptive_noise_learn = b.adaptive_noise_learn := by
      rw [hp1]
    clear hrun hrest ih
    refine ⟨s', hrun', ?_, ?_, ?_⟩
    · rw [hc, hc1]; simp only [List.length_cons]; omega
    · rw [ha, ha1, hc1]
      simp only [Bool.or_eq_true, decide_eq_true_eq, List.length_cons, List.mem_cons,
        exists_eq_or_imp, ne_eq, not_false_eq_true, true_and, reduceCtorEq]
      cases bs with
      | nil => simp
      | cons b' bs' =>
        simp only [List.length_cons, List.mem_cons, exists_eq_or_imp, ne_eq,
          not_false_eq_true, true_and, reduceCtorEq]
        have h1 : s.noise_profile.noise_profile_blocks_averaged + 1 >
            C.MIN_NUMBER_OF_WINDOWS_NOISE_AVERAGED →
            s.noise_profile.noise_profile_blocks_averaged + (bs'.length + 1 + 1) >
              C.MIN_NUMBER_OF_WINDOWS_NOISE_AVERAGED := by omega
        have h2 : s.noise_profile.noise_profile_blocks_averaged + 1 + (bs'.length + 1) >
            C.MIN_NUMBER_OF_WINDOWS_NOISE_AVERAGED ↔
            s.noise_profile.noise_profile_blocks_averaged + (bs'.length + 1 + 1) >
              C.MIN_NUMBER_OF_WINDOWS_NOISE_AVERAGED := by omega
        rw [h2]
        constructor
        · rintro ((h | h | h) | h | h | h)
          · exact Or.inl h
          · exact Or.inr (Or.inl (h1 h))
          · exact Or.inr (Or.inr (Or.inl h))
          · exact Or.inr (Or.inl h)
          · exact Or.inr (Or.inr (Or.inr (Or.inl h)))
          · exact Or.inr (Or.inr (Or.inr (Or.inr h)))
        · rintro (h | h | h | h | h)
          · exact Or.inl (Or.inl h)
          · exact Or.inr (Or.inl h)
          · exact Or.inl (Or.inr (Or.inr h))
          · exact Or.inr (Or.inr (Or.inl h))
          · exact Or.inr (Or.inr (Or.inr h))
    · rw [hp, hp1]
      cases bs with
      | nil => simp
      | cons b' bs' =>
        cases hl : (b' :: bs').getLast? with
        | none => simp at hl
        | some x => simp [List.getLast?_cons_cons, hl]

/-- One call in manual mode: the power spectrum, the counter, the bins `1 .. half_fft_size`
and the DC bin after the call. -/
theorem manual_call_bins {L : Type} (C : Collaborators L)
    (s : NoiseEstimator L) (f : List ℚ)
    (hmanual : s.parameters.adaptive_noise_learn = false)
    (hsize : s.noise_profile.noise_profile.length = s.half_fft_size + 1) :
    ∃ s', noise_estimation_run C (some s) (some f) = (true, some s') ∧
      s'.power_spectrum = C.compute_power_spectrum f s.fft_size ∧
      s'.noise_profile.noise_profile_blocks_averaged =
        s.noise_profile.noise_profile_blocks_averaged + 1 ∧
      (∀ k, 1 ≤ k → k ≤ s.half_fft_size →
        s'.noise_profile.noise_profile.getD k 0 =
          if s'.noise_profile.noise_profile_blocks_averaged = 1 then
            s'.power_spectrum.getD k 0
          else
            s.noise_profile.noise_profile.getD k 0 +
              (s'.power_spectrum.getD k 0 - s.noise_profile.noise_profile.getD k 0) /
                (s'.noise_profile.noise_profile_blocks_averaged : ℚ)) ∧
      s'.noise_profile.noise_profile.getD 0 0 = s.noise_profile.noise_profile.getD 0 0 := by
  refine ⟨_, noise_estimation_run_manual C s f hmanual, rfl, rfl, ?_, ?_⟩
  · intro k hk1 hk2
    have hk : 1 ≤ k ∧ k ≤ s.half_fft_size ∧ k < s.noise_profile.noise_profile.length := by
      omega
    have hb : (s.noise_profile.noise_profile_blocks_averaged + 1 ≤ 1) ↔
        (s.noise_profile.noise_profile_blocks_averaged + 1 = 1) := by omega
    show List.getD (List.foldl _ _ (List.range' 1 s.half_fft_size)) k 0 = _
    rw [rolling_loop_getD, if_pos hk]
    simp only [hb]
  · have h0 : ¬ (1 ≤ 0 ∧ 0 ≤ s.half_fft_size ∧ 0 < s.noise_profile.noise_profile.length) := by
      omega
    show List.getD (List.foldl _ _ (List.range' 1 s.half_fft_size)) 0 0 = _
    rw [rolling_loop_getD, if_neg h0]

/-- The invariant of the rolling mean: after a manual call the counter times the
bin is the old counter times the old bin plus the new power. -/
theorem manual_call_weighted_sum {L : Type} (C : Collaborators L) (s : NoiseEstimator L)
    (f : List ℚ) (hmanual : s.parameters.adaptive_noise_learn = false)
    (hsize : s.noise_profile.noise_profile.length = s.half_fft_size + 1) :
    ∃ s', noise_estimation_run C (some s) (some f) = (true, some s') ∧
      s'.noise_profile.noise_profile_blocks_averaged =
        s.noise_profile.noise_profile_blocks_averaged + 1 ∧
      ∀ k, 1 ≤ k → k ≤ s.half_fft_size →
        (s'.noise_profile.noise_profile_blocks_averaged : ℚ) *
            s'.noise_profile.noise_profile.getD k 0 =
          (s.noise_profile.noise_profile_blocks_averaged : ℚ) *
              s.noise_profile.noise_profile.getD k 0 +
            (C.compute_power_spectrum f s.fft_size).getD k 0 := by
  obtain ⟨s', hrun, hp, hb, hbins, -⟩ := manual_call_bins C s f hmanual hsize
  refine ⟨s', hrun, hb, ?_⟩
  intro k hk1 hk2
  rw [hbins k hk1 hk2, hp, hb]
  by_cases h0 : s.noise_profile.noise_profile_blocks_averaged = 0
  · simp [h0]
  · have h1 : ¬ (s.noise_profile.noise_profile_blocks_averaged + 1 = 1) := by omega
    rw [if_neg h1]
    have hne : ((s.noise_profile.noise_profile_blocks_averaged + 1 : ℕ) : ℚ) ≠ 0 :=
      Nat.cast_ne_zero.mpr (Nat.succ_ne_zero s.noise_profile.noise_profile_blocks_averaged)
    field_simp
    ring

/-- A run of manual blocks: the counter counts the blocks and the counter times
each bin `1 .. half_fft_size` accumulates the power of the frames. -/
theorem run_manual_blocks_weighted_sum {L : Type} (C : Collaborators L)
    (frames : List (List ℚ)) :
    ∀ s : NoiseEstimator L,
      s.noise_profile.noise_profile.length = s.half_fft_size + 1 →
      ∃ s', run_blocks C s (frames.map manual_block) = some s' ∧
        s'.noise_profile.noise_profile_blocks_averaged =
          s.noise_profile.noise_profile_blocks_averaged + frames.length ∧
        ∀ k, 1 ≤ k → k ≤ s.half_fft_size →
          (s'.noise_profile.noise_profile_blocks_averaged : ℚ) *
              s'.noise_profile.noise_profile.getD k 0 =
            (s.noise_profile.noise_profile_blocks_averaged : ℚ) *
                s.noise_profile.noise_profile.getD k 0 +
              (frames.map (fun f => (C.compute_power_spectrum f s.fft_size).getD k 0)).sum := by
  induction frames with
  | nil => intro s _; exact ⟨s, rfl, rfl, fun k _ _ => by simp⟩
  | cons f frames ih =>
    intro s hsize
    obtain ⟨s1, hrun, hb1, hsum1⟩ :=
      manual_call_weighted_sum C
        { s with parameters := { s.parameters with adaptive_noise_learn := false } } f rfl hsize
    obtain ⟨hfft, hhalf, hlen⟩ := manual_call_frame C _ s1 f rfl hrun
    replace hfft : s1.fft_size = s.fft_size := hfft
    replace hhalf : s1.half_fft_size = s.half_fft_size := hhalf
    replace hlen : s1.noise_profile.noise_profile.length =
        s.noise_profile.noise_profile.length := hlen
    replace hb1 : s1.noise_profile.noise_profile_blocks_averaged =
        s.noise_profile.noise_profile_blocks_averaged + 1 := hb1
    replace hsum1 : ∀ k, 1 ≤ k → k ≤ s.half_fft_size →
        (s1.noise_profile.noise_profile_blocks_averaged : ℚ) *
            s1.noise_profile.noise_profile.getD k 0 =
          (s.noise_profile.noise_profile_blocks_averaged : ℚ) *
              s.noise_profile.noise_profile.getD k 0 +
            (C.compute_power_spectrum f s.fft_size).getD k 0 := hsum1
    obtain ⟨s', hrest, hb, hsum⟩ := ih s1 (by rw [hlen, hhalf, hsize])
    have hrun' : run_blocks C s ((f :: frames).map manual_block) = some s' :=
      (run_blocks_cons C s s1 (manual_block f) (frames.map manual_block) hrun).trans hrest
    clear hrun hrest ih
    refine ⟨s', hrun', ?_, ?_⟩
    · rw [hb, hb1]; simp only [List.length_cons]; omega
    · intro k hk1 hk2
      rw [hsum k hk1 (by rw [hhalf]; exact hk2), hsum1 k hk1 hk2, hfft]
      simp only [List.map_cons, List.sum_cons]
      ring

/-! ## Claims on the noise estimator -/

/-- C1 (as stated, refuted): on the first block of the manual rolling-mean mode
the DC bin (k = 0) does not become `power[0]`. With the frame `[3, 2, 1, 0]`
the power spectrum is `[9, 4, 1, 0]`, the counter after the increment is 1, and
bin 0 of the profile is still 0. -/
theorem C1_dc_bin_is_not_updated :
    ∃ s, noise_estimation_run demo_collaborators (some demo_estimator) (some [3, 2, 1, 0]) =
        (true, some s) ∧
      s.noise_profile.noise_profile_blocks_averaged = 1 ∧
      s.power_spectrum.getD 0 0 = 9 ∧
      s.noise_profile.noise_profile.getD 0 0 = 0 ∧
      s.noise_profile.noise_profile.getD 0 0 ≠ s.power_spectrum.getD 0 0 := by
  obtain ⟨s, hrun, hp, hb, _, hdc⟩ :=
    manual_call_bins demo_collaborators demo_estimator [3, 2, 1, 0] rfl rfl
  have h9 : s.power_spectrum.getD 0 0 = 9 := by
    rw [hp]; norm_num [demo_collaborators ]
  have h0 : s.noise_profile.noise_profile.getD 0 0 = 0 := by
    rw [hdc]; rfl
  refine ⟨s, hrun, hb, h9, h0, ?_⟩
  rw [h9, h0]; norm_num

/-- C1 (amended): in manual rolling-mean mode one successful call of
`noise_estimation_run` increments the counter, and updates every bin `k` with
`1 ≤ k ≤ half_fft_size` of the profile: to `power[k]` when the incremented
counter is 1, otherwise to
`profile[k] + (power[k] - profile[k]) / blocks_averaged` with the incremented
counter. Bin 0 (DC) keeps its value. -/
theorem C1_rolling_mean_updates_bins_from_one {L : Type} (C : Collaborators L)
    (s : NoiseEstimator L) (f : List ℚ)
    (hmanual : s.parameters.adaptive_noise_learn = false)
    (hsize : s.noise_profile.noise_profile.length = s.half_fft_size + 1) :
    ∃ s', noise_estimation_run C (some s) (some f) = (true, some s') ∧
      s'.power_spectrum = C.compute_power_spectrum f s.fft_size ∧
      s'.noise_profile.noise_profile_blocks_averaged =
        s.noise_profile.noise_profile_blocks_averaged + 1 ∧
      (∀ k, 1 ≤ k → k ≤ s.half_fft_size →
        s'.noise_profile.noise_profile.getD k 0 =
          if s'.noise_profile.noise_profile_blocks_averaged = 1 then
            s'.power_spectrum.getD k 0
          else
            s.noise_profile.noise_profile.getD k 0 +
              (s'.power_spectrum.getD k 0 - s.noise_profile.noise_profile.getD k 0) /
                (s'.noise_profile.noise_profile_blocks_averaged : ℚ)) ∧
      s'.noise_profile.noise_profile.getD 0 0 = s.noise_profile.noise_profile.getD 0 0 :=
  manual_call_bins C s f hmanual hsize

/-- Witness of C1 (amended): the second manual block of a three-bin profile. -/
theorem C1_rolling_mean_updates_bins_from_one_witness :
    ∃ s', noise_estimation_run demo_collaborators
        (some { demo_estimator with
                noise_profile :=
                  { noise_profile_size := 3, noise_profile_blocks_averaged := 1,
                    noise_profile := [0, 4, 9] } })
        (some [3, 4, 5, 0]) = (true, some s') ∧
      s'.noise_profile.noise_profile_blocks_averaged = 2 ∧
      s'.noise_profile.noise_profile.getD 1 0 = 10 ∧
      s'.noise_profile.noise_profile.getD 2 0 = 17 ∧
      s'.noise_profile.noise_profile.getD 0 0 = 0 := by
  obtain ⟨s', hrun, hp, hb, hbins, hdc⟩ :=
    C1_rolling_mean_updates_bins_from_one demo_collaborators
      { demo_estimator with
        noise_profile :=
          { noise_profile_size := 3, noise_profile_blocks_averaged := 1,
            noise_profile := [0, 4, 9] } }
      [3, 4, 5, 0] rfl rfl
  refine ⟨s', hrun, hb, ?_, ?_, hdc⟩
  · rw [hbins 1 (by decide) (by decide), hb, hp]
    norm_num [demo_collaborators, demo_estimator, noise_estimation_initialize ]
  · rw [hbins 2 (by decide) (by decide), hb, hp]
    norm_num [demo_collaborators, demo_estimator, noise_estimation_initialize ]

/-- C2: manual learning yields the arithmetic mean. Starting from a reset profile
(`blocks_averaged = 0`) and running `noise_estimation_run` on `M ≥ 1` frames in
manual rolling-mean mode, every bin `k` with `1 ≤ k ≤ half_fft_size` equals the
sum of the `M` power values of that bin divided by `M`, in exact arithmetic;
when all frames are the same frame, the bin equals the power of that frame. -/
theorem C2_manual_learning_is_arithmetic_mean {L : Type} (C : Collaborators L)
    (s : NoiseEstimator L) (frames : List (List ℚ)) (k : Nat)
    (hreset : s.noise_profile.noise_profile_blocks_averaged = 0)
    (hsize : s.noise_profile.noise_profile.length = s.half_fft_size + 1)
    (hM : 1 ≤ frames.length) (hk1 : 1 ≤ k) (hk2 : k ≤ s.half_fft_size) :
    ∃ s', run_blocks C s (frames.map manual_block) = some s' ∧
      s'.noise_profile.noise_profile.getD k 0 =
        (frames.map (fun f => (C.compute_power_spectrum f s.fft_size).getD k 0)).sum /
          (frames.length : ℚ) ∧
      ∀ f, frames = List.replicate frames.length f →
        s'.noise_profile.noise_profile.getD k 0 =
          (C.compute_power_spectrum f s.fft_size).getD k 0 := by
  obtain ⟨s', hrun, hb, hsum⟩ := run_manual_blocks_weighted_sum C frames s hsize
  have hM0 : (frames.length : ℚ) ≠ 0 := Nat.cast_ne_zero.mpr (by omega)
  have hmean := hsum k hk1 hk2
  rw [hb, hreset] at hmean
  simp only [Nat.zero_add, Nat.cast_zero, zero_mul, zero_add] at hmean
  have hbin : s'.noise_profile.noise_profile.getD k 0 =
      (frames.map (fun f => (C.compute_power_spectrum f s.fft_size).getD k 0)).sum /
        (frames.length : ℚ) := by
    rw [← hmean]; field_simp
  refine ⟨s', hrun, hbin, ?_⟩
  intro f hf
  rw [hbin, hf]
  simp only [List.map_replicate, List.sum_replicate, List.length_replicate, nsmul_eq_mul]
  field_simp

/-- Witness of C2: two manual frames on the three-bin estimator; bin 1 is the mean
of the powers 4 and 16. -/
theorem C2_manual_learning_is_arithmetic_mean_witness :
    ∃ s', run_blocks demo_collaborators demo_estimator
        ([[1, 2, 3, 0], [3, 4, 5, 0]].map manual_block) = some s' ∧
      s'.noise_profile.noise_profile.getD 1 0 = 10 := by
  obtain ⟨s', hrun, hmean, -⟩ :=
    C2_manual_learning_is_arithmetic_mean demo_collaborators demo_estimator
      [[1, 2, 3, 0], [3, 4, 5, 0]] 1 rfl rfl (by decide) (by decide) (by decide)
  refine ⟨s', hrun, ?_⟩
  rw [hmean]
  norm_num [demo_collaborators ]

/-- C3: the warm-up gate of the manual mode. From a freshly initialised estimator
over a reset profile, after `M` successful manual calls
`is_noise_estimation_available` is true exactly when
`M > MIN_NUMBER_OF_WINDOWS_NOISE_AVERAGED`. -/
theorem C3_manual_warm_up_gate {L : Type} (C : Collaborators L) (fft_size sample_rate : Nat)
    (noise_profile : NoiseProfile) (parameters : ProcessorParameters)
    (frames : List (List ℚ))
    (hreset : noise_profile.noise_profile_blocks_averaged = 0) :
    ∃ s', run_blocks C
        ( noise_estimation_initialize C fft_size sample_rate noise_profile parameters)
        (frames.map manual_block) = some s' ∧
      (is_noise_estimation_available s' = true ↔
        frames.length > C.MIN_NUMBER_OF_WINDOWS_NOISE_AVERAGED) := by
  obtain ⟨s', hrun, -, havail, -⟩ :=
    run_blocks_counter_availability C (frames.map manual_block)
      ( noise_estimation_initialize C fft_size sample_rate noise_profile parameters)
  refine ⟨s', hrun, ?_⟩
  have h0 : ( noise_estimation_initialize C fft_size sample_rate noise_profile
      parameters).noise_profile.noise_profile_blocks_averaged = 0 := hreset
  have hf : ( noise_estimation_initialize C fft_size sample_rate noise_profile
      parameters).noise_spectrum_available = false := rfl
  rw [h0, hf] at havail
  unfold is_noise_estimation_available
  rw [havail]
  simp only [List.length_map, Nat.zero_add, List.mem_map, manual_block]
  constructor
  · rintro (h | h | ⟨b, ⟨f, -, rfl⟩, hb⟩)
    · exact absurd h (by decide)
    · exact h.2
    · exact absurd hb Bool.false_ne_true
  · intro h
    refine Or.inr (Or.inl ⟨?_, h⟩)
    intro hnil
    rw [List.map_eq_nil_iff] at hnil
    rw [hnil] at h
    exact Nat.not_lt_zero _ h

/-- Witness of C3: with a minimum window of 5, six manual frames make the profile
available. -/
theorem C3_manual_warm_up_gate_witness :
    ∃ s', run_blocks demo_collaborators demo_estimator
        ((List.replicate 6 [1, 2, 3, 0]).map manual_block) = some s' ∧
      is_noise_estimation_available s' = true := by
  obtain ⟨s', hrun, havail⟩ :=
    C3_manual_warm_up_gate demo_collaborators 4 44100 demo_profile
      { learn_noise := true, adaptive_noise_learn := false }
      (List.replicate 6 [1, 2, 3, 0]) rfl
  exact ⟨s', hrun, havail.mpr (by decide)⟩

/-- C4 (as stated, refuted): an adaptive-mode call leaves the counter at the old
value plus one, the very value a manual-mode call leaves from the same state.
On the fresh three-bin estimator both calls leave `blocks_averaged = 1`. -/
theorem C4_adaptive_call_increments_like_manual :
    ∃ sa sm,
      noise_estimation_run demo_collaborators
          (some { demo_estimator with
                  parameters := { learn_noise := true, adaptive_noise_learn := true } })
          (some [3, 2, 1, 0]) = (true, some sa) ∧
      noise_estimation_run demo_collaborators
          (some { demo_estimator with
                  parameters := { learn_noise := true, adaptive_noise_learn := false } })
          (some [3, 2, 1, 0]) = (true, some sm) ∧
      sa.noise_profile.noise_profile_blocks_averaged =
        demo_estimator.noise_profile.noise_profile_blocks_averaged + 1 ∧
      sa.noise_profile.noise_profile_blocks_averaged = 1 ∧
      sm.noise_profile.noise_profile_blocks_averaged = 1 :=
  ⟨_, _, noise_estimation_run_adaptive _ _ _ rfl, noise_estimation_run_manual _ _ _ rfl,
    rfl, rfl, rfl⟩

/-- C4 (amended): when the adaptive strategy is active, a successful call of
`noise_estimation_run` increments `blocks_averaged` by one, exactly as a
manual-mode call from the same state does, and the estimator is available right
after the call. -/
theorem C4_adaptive_call_counts_and_is_available {L : Type} (C : Collaborators L)
    (s : NoiseEstimator L) (f : List ℚ)
    (hadaptive : s.parameters.adaptive_noise_learn = true) :
    ∃ sa sm,
      noise_estimation_run C (some s) (some f) = (true, some sa) ∧
      noise_estimation_run C
          (some { s with parameters := { s.parameters with adaptive_noise_learn := false } })
          (some f) = (true, some sm) ∧
      sa.noise_profile.noise_profile_blocks_averaged =
        s.noise_profile.noise_profile_blocks_averaged + 1 ∧
      sm.noise_profile.noise_profile_blocks_averaged =
        sa.noise_profile.noise_profile_blocks_averaged ∧
      is_noise_estimation_available sa = true :=
  ⟨_, _, noise_estimation_run_adaptive C s f hadaptive,
    noise_estimation_run_manual C _ f rfl, rfl, rfl, rfl⟩

/-- Witness of C4 (amended): the adaptive call on the fresh three-bin estimator. -/
theorem C4_adaptive_call_counts_and_is_available_witness :
    ∃ sa,
      noise_estimation_run demo_collaborators
          (some { demo_estimator with
                  parameters := { learn_noise := true, adaptive_noise_learn := true } })
          (some [3, 2, 1, 0]) = (true, some sa) ∧
      sa.noise_profile.noise_profile_blocks_averaged = 1 ∧
      is_noise_estimation_available sa = true := by
  obtain ⟨sa, _, hrun, _, hcount, _, havail⟩ :=
    C4_adaptive_call_counts_and_is_available demo_collaborators
      { demo_estimator with
        parameters := { learn_noise := true, adaptive_noise_learn := true } }
      [3, 2, 1, 0] rfl
  exact ⟨sa, hrun, hcount, havail⟩

/-- C9: one strategy updates the profile per call, chosen by the parameters read
at that call. With the adaptive strategy active the bins after the call are
those `louizou_estimator_run` produced from the bins before the call, its state
is the one it returned, and the result of the call does not depend on
`learn_noise`; with it inactive the bins are those of the rolling mean over the
bins before the call and the state of the adaptive estimator is unchanged. -/
theorem C9_one_strategy_per_call {L : Type} (C : Collaborators L) (s : NoiseEstimator L)
    (f : List ℚ) :
    ∃ s', noise_estimation_run C (some s) (some f) = (true, some s') ∧
      (s.parameters.adaptive_noise_learn = true →
        s'.noise_profile.noise_profile =
          (C.louizou_estimator_run s.adaptive_estimator
            (C.compute_power_spectrum f s.fft_size) s.noise_profile.noise_profile).2 ∧
        s'.adaptive_estimator =
          (C.louizou_estimator_run s.adaptive_estimator
            (C.compute_power_spectrum f s.fft_size) s.noise_profile.noise_profile).1 ∧
        ∀ b : Bool,
          noise_estimation_run C
              (some { s with parameters := { s.parameters with learn_noise := b } })
              (some f) =
            (true, some { s' with parameters := { s'.parameters with learn_noise := b } })) ∧
      (s.parameters.adaptive_noise_learn = false →
        s'.noise_profile.noise_profile =
          get_rolling_mean_noise_spectrum
            { s with noise_profile := increment_blocks_averaged s.noise_profile }
            (C.compute_power_spectrum f s.fft_size) s.noise_profile.noise_profile ∧
        s'.adaptive_estimator = s.adaptive_estimator) := by
  by_cases h : s.parameters.adaptive_noise_learn = true
  · refine ⟨_, noise_estimation_run_adaptive C s f h, fun _ => ⟨rfl, rfl, fun b => ?_⟩,
      fun hm => Bool.noConfusion (h.symm.trans hm)⟩
    exact noise_estimation_run_adaptive C
      { s with parameters := { s.parameters with learn_noise := b } } f h
  · have h' : s.parameters.adaptive_noise_learn = false := by simpa using h
    exact ⟨_, noise_estimation_run_manual C s f h', fun h'' => absurd h'' h,
      fun _ => ⟨rfl, rfl⟩⟩

/-- Witness of C9 on the three-bin estimator: in adaptive mode the bins are those
of the adaptive estimator (every bin moved halfway to the power) and its run
counter advances; in manual mode the run counter of the adaptive estimator
stays at 0. -/
theorem C9_one_strategy_per_call_witness :
    (∃ sa,
      noise_estimation_run demo_collaborators
          (some { demo_estimator with
                  parameters := { learn_noise := false, adaptive_noise_learn := true } })
          (some [4, 2, 2, 0]) = (true, some sa) ∧
      sa.noise_profile.noise_profile = [8, 2, 2] ∧ sa.adaptive_estimator = 1) ∧
    (∃ sm,
      noise_estimation_run demo_collaborators (some demo_estimator) (some [4, 2, 2, 0]) =
        (true, some sm) ∧
      sm.adaptive_estimator = 0) := by
  constructor
  · obtain ⟨sa, hrun, hadaptive, -⟩ :=
      C9_one_strategy_per_call demo_collaborators
        { demo_estimator with
          parameters := { learn_noise := false, adaptive_noise_learn := true } }
        [4, 2, 2, 0]
    obtain ⟨hbins, hstate, -⟩ := hadaptive rfl
    refine ⟨sa, hrun, ?_, ?_⟩
    · rw [hbins]
      norm_num [demo_collaborators, demo_estimator, demo_profile,
        noise_estimation_initialize ]
    · rw [hstate]; rfl
  · obtain ⟨sm, hrun, -, hmanual⟩ :=
      C9_one_strategy_per_call demo_collaborators demo_estimator [4, 2, 2, 0]
    exact ⟨sm, hrun, (hmanual rfl).2⟩

/-- C10 (as stated, refuted): after one adaptive block and one manual block on the
fresh three-bin estimator, `is_noise_estimation_available` is true although
`blocks_averaged` is 2, which does not exceed the minimum window of 5, and the
adaptive strategy is inactive in the current parameters. -/
theorem C10_available_after_leaving_adaptive_mode :
    ∃ s', run_blocks demo_collaborators demo_estimator
        [{ adaptive_noise_learn := true, fft_spectrum := [1, 2, 3, 0] },
         { adaptive_noise_learn := false, fft_spectrum := [1, 2, 3, 0] }] = some s' ∧
      is_noise_estimation_available s' = true ∧
      s'.noise_profile.noise_profile_blocks_averaged = 2 ∧
      demo_collaborators.MIN_NUMBER_OF_WINDOWS_NOISE_AVERAGED = 5 ∧
      s'.parameters.adaptive_noise_learn = false ∧
      ¬ (is_noise_estimation_available s' = true ↔
          (s'.noise_profile.noise_profile_blocks_averaged >
              demo_collaborators.MIN_NUMBER_OF_WINDOWS_NOISE_AVERAGED ∨
            s'.parameters.adaptive_noise_learn = true)) := by
  obtain ⟨s', hrun, hcount, havail, hparam⟩ :=
    run_blocks_counter_availability demo_collaborators
      [{ adaptive_noise_learn := true, fft_spectrum := [1, 2, 3, 0] },
       { adaptive_noise_learn := false, fft_spectrum := [1, 2, 3, 0] }] demo_estimator
  have h1 : is_noise_estimation_available s' = true :=
    havail.mpr (Or.inr (Or.inr ⟨_, List.mem_cons_self _ _, rfl⟩))
  have h2 : s'.noise_profile.noise_profile_blocks_averaged = 2 := hcount
  have h3 : s'.parameters.adaptive_noise_learn = false := hparam
  refine ⟨s', hrun, h1, h2, rfl, h3, ?_⟩
  rw [h2, h3]
  intro h
  rcases h.mp h1 with h5 | h5
  · exact absurd h5 (by decide)
  · exact absurd h5 Bool.false_ne_true

/-- C10 (amended): in every state reached from a freshly initialised estimator by
successful calls of `noise_estimation_run`, with the adaptive flag chosen per
call, `is_noise_estimation_available` is true exactly when at least one call
was made and `blocks_averaged` exceeds `MIN_NUMBER_OF_WINDOWS_NOISE_AVERAGED`,
or the adaptive strategy was active at one of the calls made so far. So after
at least one call it is true whenever `blocks_averaged` exceeds the minimum or
the adaptive strategy is active in the current parameters. -/
theorem C10_availability_latches {L : Type} (C : Collaborators L) (fft_size sample_rate : Nat)
    (noise_profile : NoiseProfile) (parameters : ProcessorParameters) (bs : List Block) :
    ∃ s', run_blocks C
        ( noise_estimation_initialize C fft_size sample_rate noise_profile parameters) bs =
          some s' ∧
      (is_noise_estimation_available s' = true ↔
        ((bs ≠ [] ∧
            s'.noise_profile.noise_profile_blocks_averaged >
              C.MIN_NUMBER_OF_WINDOWS_NOISE_AVERAGED) ∨
          ∃ b ∈ bs, b.adaptive_noise_learn = true)) ∧
      (bs ≠ [] →
        (s'.noise_profile.noise_profile_blocks_averaged >
            C.MIN_NUMBER_OF_WINDOWS_NOISE_AVERAGED ∨
          s'.parameters.adaptive_noise_learn = true) →
        is_noise_estimation_available s' = true) := by
  obtain ⟨s', hrun, hcount, havail, hparam⟩ :=
    run_blocks_counter_availability C bs
      ( noise_estimation_initialize C fft_size sample_rate noise_profile parameters)
  have hf : ( noise_estimation_initialize C fft_size sample_rate noise_profile
      parameters).noise_spectrum_available = false := rfl
  rw [hf] at havail
  have hiff : is_noise_estimation_available s' = true ↔
      ((bs ≠ [] ∧
          s'.noise_profile.noise_profile_blocks_averaged >
            C.MIN_NUMBER_OF_WINDOWS_NOISE_AVERAGED) ∨
        ∃ b ∈ bs, b.adaptive_noise_learn = true) := by
    unfold is_noise_estimation_available
    rw [havail, hcount]
    constructor
    · rintro (h | h | h)
      · exact absurd h Bool.false_ne_true
      · exact Or.inl h
      · exact Or.inr h
    · rintro (h | h)
      · exact Or.inr (Or.inl h)
      · exact Or.inr (Or.inr h)
  refine ⟨s', hrun, hiff, ?_⟩
  intro hne hor
  rcases hor with h | h
  · exact hiff.mpr (Or.inl ⟨hne, h⟩)
  · refine hiff.mpr (Or.inr ?_)
    rw [hparam] at h
    cases hl : bs.getLast? with
    | none => exact absurd (List.getLast?_eq_none_iff.mp hl) hne
    | some b =>
      rw [hl] at h
      exact ⟨b, List.mem_of_getLast?_eq_some hl, h⟩

/-! ## Claims on the plugin shell -/

/-- C5 (the code at the failing input): with 10 at the amount port and 150 at the
release port, the parameter snapshot that `run` builds and hands to
`nrepel_load_parameters` has `release_time = 10`, the value of the amount
port, not the 150 of the release port. -/
theorem C5_release_time_is_read_from_amount_port :
    ∃ p r,
      instantiate (demo_externals 5 16) NOISEREPELLENT_URI 44100 { map := some demo_map } =
        some p ∧
      run (demo_externals 5 16) (connect_all_ports p 100) demo_memory 0 = some r ∧
      (connect_all_ports p 100).release_time = some (100 + NOISEREPELLENT_RELEASE) ∧
      (connect_all_ports p 100).reduction_amount = some (100 + NOISEREPELLENT_AMOUNT) ∧
      demo_memory (100 + NOISEREPELLENT_RELEASE) = 150 ∧
      demo_memory (100 + NOISEREPELLENT_AMOUNT) = 10 ∧
      r.1.parameters.release_time = 10 ∧
      r.1.parameters.reduction_amount = 10 ∧
      r.1.lib_instance_1.parameters.release_time = 10 := by
  refine ⟨_, _, rfl, rfl, rfl, rfl, ?_, ?_, ?_, ?_, ?_⟩ <;> decide

/-- C6 (the code at the failing input): on the stereo plugin, with a persisted
state that holds the bin count, the averaged blocks and the first profile but
no second profile, `restore` calls `nrepel_load_noise_profile` on
`lib_instance_1`, whose profile is overwritten, and then returns
`LV2_STATE_ERR_NO_PROPERTY`. -/
theorem C6_stereo_restore_fails_after_first_load :
    ∃ p,
      instantiate (demo_externals 5 16) NOISEREPELLENT_STEREO_URI 44100
        { map := some demo_map } = some p ∧
      p.lib_instance_1.noise_profile.noise_profile = [0, 0, 0, 0, 0] ∧
      (restore (demo_externals 5 16) p
        (retrieve_from demo_state_without_second_profile)).status =
          .LV2_STATE_ERR_NO_PROPERTY ∧
      (restore (demo_externals 5 16) p
        (retrieve_from demo_state_without_second_profile)).load_calls =
          [{ lib_instance := 1, restored_profile := [1, 2, 3, 4, 5],
             noise_profile_size := 5, averaged_blocks := 9 }] ∧
      (restore (demo_externals 5 16) p
        (retrieve_from demo_state_without_second_profile)).self.lib_instance_1.noise_profile.noise_profile =
          [1, 2, 3, 4, 5] := by
  refine ⟨_, rfl, ?_, ?_, ?_, ?_⟩ <;> decide

/-- C7 (as stated, refuted): on the mono plugin with a live profile of 5 bins, a
persisted state whose stored bin count is 7 and whose three properties have the
expected types makes `restore` return `LV2_STATE_SUCCESS`, although
`nrepel_load_noise_profile` rejects the profile. -/
theorem C7_restore_succeeds_on_bin_count_mismatch :
    ∃ p,
      instantiate (demo_externals 5 16) NOISEREPELLENT_URI 44100 { map := some demo_map } =
        some p ∧
      (demo_externals 5 16).nrepel_get_noise_profile_size p.lib_instance_1 = 5 ∧
      (retrieve_from (demo_state_with_bin_count 7) p.state.property_noise_profile_size).map
        (fun q => q.value.as_uint32) = some 7 ∧
      ((demo_externals 5 16).nrepel_load_noise_profile p.lib_instance_1
        (List.replicate 7 1) 7 9).1 = false ∧
      (restore (demo_externals 5 16) p (retrieve_from (demo_state_with_bin_count 7))).status =
        .LV2_STATE_SUCCESS := by
  refine ⟨_, rfl, ?_, ?_, ?_, ?_⟩ <;> decide

/-- C8 (the code at the failing input): on the mono plugin with an available
five-bin profile, `save` stores the profile under a byte size of
`sizeof(float) * 5 = 20`; `restore`, run against exactly the three stored
properties, wants the byte size `sizeof(NoiseProfileState) = 16`, returns
`LV2_STATE_ERR_NO_PROPERTY` and never calls `nrepel_load_noise_profile`. -/
theorem C8_restore_rejects_what_save_stored :
    ∃ p s,
      instantiate (demo_externals 5 16) NOISEREPELLENT_URI 44100 { map := some demo_map } =
        some p ∧
      (demo_externals 5 16).nrepel_noise_profile_available demo_learned_engine = true ∧
      save (demo_externals 5 16) { p with lib_instance_1 := demo_learned_engine } = some s ∧
      s.status = .LV2_STATE_SUCCESS ∧
      s.stored.map (fun q => (q.key, q.size, q.type)) = [(11, 4, 3), (12, 4, 3), (10, 20, 5)] ∧
      (restore (demo_externals 5 16) s.self (retrieve_from s.stored)).status =
        .LV2_STATE_ERR_NO_PROPERTY ∧
      (restore (demo_externals 5 16) s.self (retrieve_from s.stored)).load_calls = [] := by
  refine ⟨_, _, rfl, rfl, rfl, ?_, ?_, ?_, ?_⟩ <;> decide

/-- C7 (amended): on the mono plugin, whenever the three properties are present
with the expected types and the profile property has the byte size of
`NoiseProfileState`, `restore` returns `LV2_STATE_SUCCESS` whatever the stored
bin count is: the stored count is handed to `nrepel_load_noise_profile` in one
call on `lib_instance_1`, and the value that call returns is not looked at. -/
theorem C7_restore_status_ignores_bin_count {E : Type} (X : Externals E)
    (self : NoiseRepellentAdaptivePlugin E) (retrieve : LV2_URID → Option Property)
    (fftsize averagedblocks saved : Property)
    (hsize : retrieve self.state.property_noise_profile_size = some fftsize)
    (hsize_type : fftsize.type = self.uris.atom_Int)
    (hblocks : retrieve self.state.property_averaged_blocks = some averagedblocks)
    (hblocks_type : averagedblocks.type = self.uris.atom_Int)
    (hprofile : retrieve self.state.property_noise_profile_1 = some saved)
    (hprofile_size : saved.size = X.sizeof_NoiseProfileState)
    (hprofile_type : saved.type = self.uris.atom_Vector)
    (hmono : strstr self.plugin_uri NOISEREPELLENT_STEREO_URI = false) :
    (restore X self retrieve).status = .LV2_STATE_SUCCESS ∧
      (restore X self retrieve).load_calls =
        [{ lib_instance := 1
           restored_profile := saved.value.atom_body
           noise_profile_size := fftsize.value.as_uint32
           averaged_blocks := averagedblocks.value.as_uint32 }] ∧
      (restore X self retrieve).self.lib_instance_1 =
        (X.nrepel_load_noise_profile self.lib_instance_1 saved.value.atom_body
          fftsize.value.as_uint32 averagedblocks.value.as_uint32).2 := by
  simp [restore, hsize, hsize_type, hblocks, hblocks_type, hprofile, hprofile_size,
    hprofile_type, hmono]

/-- Witness of C7 (amended): a stored bin count of 3 against a live profile of 5
bins; `restore` succeeds and hands the 3 to `nrepel_load_noise_profile`. -/
theorem C7_restore_status_ignores_bin_count_witness :
    instantiate (demo_externals 5 16) NOISEREPELLENT_URI 44100 { map := some demo_map } =
        some demo_mono_plugin ∧
      (demo_externals 5 16).nrepel_get_noise_profile_size demo_mono_plugin.lib_instance_1 = 5 ∧
      (restore (demo_externals 5 16) demo_mono_plugin
        (retrieve_from (demo_state_with_bin_count 3))).status = .LV2_STATE_SUCCESS ∧
      (restore (demo_externals 5 16) demo_mono_plugin
        (retrieve_from (demo_state_with_bin_count 3))).load_calls =
          [{ lib_instance := 1, restored_profile := [1, 1, 1], noise_profile_size := 3,
             averaged_blocks := 9 }] := by
  have h :=
    C7_restore_status_ignores_bin_count (demo_externals 5 16) demo_mono_plugin
      (retrieve_from (demo_state_with_bin_count 3))
      { key := 11, value := blob_of_uint32 3, size := 4, type := 3, flags := 3 }
      { key := 12, value := blob_of_uint32 9, size := 4, type := 3, flags := 3 }
      { key := 10, value := { as_uint32 := 4, atom_body := List.replicate 3 1 }, size := 16,
        type := 5, flags := 3 }
      (by decide) (by decide) (by decide) (by decide) (by decide) (by decide) (by decide)
      (by decide)
  exact ⟨rfl, rfl, h.1, h.2.1⟩

/-! ## Further properties of the plugin shell -/

/-- The snapshot of `run`, for every memory and every plugin on which `run`
returns: each field holds the value of the port of the same name, except
`release_time`, which holds the value of the amount port. -/
theorem run_parameters_snapshot {E : Type} (X : Externals E)
    (self : NoiseRepellentAdaptivePlugin E) (mem : Memory) (number_of_samples : Nat)
    (r : NoiseRepellentAdaptivePlugin E × Memory)
    (hrun : run X self mem number_of_samples = some r) :
    ∃ enable learn_noise residual_listen masking_ceiling_limit reduction_amount noise_rescale
        transient_threshold whitening_factor,
      self.enable = some enable ∧ self.learn_noise = some learn_noise ∧
      self.residual_listen = some residual_listen ∧
      self.masking_ceiling_limit = some masking_ceiling_limit ∧
      self.reduction_amount = some reduction_amount ∧
      self.noise_rescale = some noise_rescale ∧
      self.transient_threshold = some transient_threshold ∧
      self.whitening_factor = some whitening_factor ∧
      r.1.parameters =
        { enable := float_to_bool (mem enable)
          learn_noise := float_to_bool (mem learn_noise)
          residual_listen := float_to_bool (mem residual_listen)
          masking_ceiling_limit := mem masking_ceiling_limit
          reduction_amount := mem reduction_amount
          noise_rescale := mem noise_rescale
          release_time := mem reduction_amount
          transient_threshold := mem transient_threshold
          whitening_factor := mem whitening_factor } := by
  obtain ⟨i1, i2, o1, o2, sr, rl, uris, st, uri, l1, l2, ps, n1, n2, en, ln, res, red, rel,
    mask, whit, trans, nr, reset⟩ := self
  cases en with
  | none => exact Option.noConfusion hrun
  | some en =>
  cases ln with
  | none => exact Option.noConfusion hrun
  | some ln =>
  cases res with
  | none => exact Option.noConfusion hrun
  | some res =>
  cases mask with
  | none => exact Option.noConfusion hrun
  | some mask =>
  cases red with
  | none => exact Option.noConfusion hrun
  | some red =>
  cases nr with
  | none => exact Option.noConfusion hrun
  | some nr =>
  cases trans with
  | none => exact Option.noConfusion hrun
  | some trans =>
  cases whit with
  | none => exact Option.noConfusion hrun
  | some whit =>
  refine ⟨en, ln, res, mask, red, nr, trans, whit, rfl, rfl, rfl, rfl, rfl, rfl, rfl, rfl, ?_⟩
  cases reset with
  | none => exact Option.noConfusion hrun
  | some reset =>
  cases i1 with
  | none => exact Option.noConfusion hrun
  | some i1 =>
  cases o1 with
  | none => exact Option.noConfusion hrun
  | some o1 =>
  rw [← Option.some.inj hrun]

/-- The snapshot lemma at a concrete input: the mono plugin with all ports connected; the release time of the
snapshot is the 10 of the amount port. -/
theorem run_parameters_snapshot_witness :
    ∃ r, run (demo_externals 5 16) (connect_all_ports demo_mono_plugin 100) demo_memory 0 =
        some r ∧
      r.1.parameters.release_time = 10 ∧ r.1.parameters.enable = true := by
  obtain ⟨r, hr⟩ : ∃ r,
      run (demo_externals 5 16) (connect_all_ports demo_mono_plugin 100) demo_memory 0 =
        some r := ⟨_, rfl⟩
  obtain ⟨e, _, _, _, a, _, _, _, he, _, _, _, ha, _, _, _, hp⟩ :=
    run_parameters_snapshot (demo_externals 5 16)
      (connect_all_ports demo_mono_plugin 100) demo_memory 0 r hr
  have he' : e = 109 := (Option.some.inj he).symm
  have ha' : a = 100 := (Option.some.inj ha).symm
  refine ⟨r, hr, ?_, ?_⟩
  · rw [hp, ha']
    show demo_memory 100 = 10
    decide
  · rw [hp, he']
    show float_to_bool (demo_memory 109) = true
    decide

/-- On the mono plugin `restore` is atomic. When it does not return
`LV2_STATE_SUCCESS` it has made no call of `nrepel_load_noise_profile` and the
plugin is unchanged. -/
theorem restore_mono_atomic {E : Type} (X : Externals E)
    (self : NoiseRepellentAdaptivePlugin E) (retrieve : LV2_URID → Option Property)
    (hmono : strstr self.plugin_uri NOISEREPELLENT_STEREO_URI = false)
    (hfail : (restore X self retrieve).status ≠ .LV2_STATE_SUCCESS) :
    (restore X self retrieve).load_calls = [] ∧ (restore X self retrieve).self = self := by
  unfold restore at hfail ⊢
  cases h1 : retrieve self.state.property_noise_profile_size with
  | none => simp
  | some fftsize =>
  by_cases t1 : fftsize.type = self.uris.atom_Int
  swap
  · simp [t1]
  cases h2 : retrieve self.state.property_averaged_blocks with
  | none => simp [t1]
  | some averagedblocks =>
  by_cases t2 : averagedblocks.type = self.uris.atom_Int
  swap
  · simp [t1, t2]
  cases h3 : retrieve self.state.property_noise_profile_1 with
  | none => simp [t1, t2]
  | some saved =>
  by_cases t3 : saved.size = X.sizeof_NoiseProfileState
  swap
  · simp [t1, t2, t3]
  by_cases t4 : saved.type = self.uris.atom_Vector
  swap
  · simp [t1, t2, t3, t4]
  simp [h1, h2, h3, t1, t2, t3, t4, hmono] at hfail

/-- The atomicity lemma at a concrete input: the mono plugin against an empty persisted state. -/
theorem restore_mono_atomic_witness :
    (restore (demo_externals 5 16) demo_mono_plugin (retrieve_from [])).status =
        .LV2_STATE_ERR_NO_PROPERTY ∧
      (restore (demo_externals 5 16) demo_mono_plugin (retrieve_from [])).load_calls = [] :=
  ⟨by decide,
    (restore_mono_atomic (demo_externals 5 16) demo_mono_plugin (retrieve_from [])
      (by decide) (by decide)).1⟩

/-- On the mono plugin with an available profile and three distinct property keys,
`restore` run on what `save` stored fails whenever the byte size that `save`
gives the profile, `sizeof(float) * noise_profile_size`, is not the byte size
that `restore` asks for, `sizeof(NoiseProfileState)`. -/
theorem restore_after_save_size_mismatch {E : Type} (X : Externals E)
    (self : NoiseRepellentAdaptivePlugin E)
    (hmono : strstr self.plugin_uri NOISEREPELLENT_STEREO_URI = false)
    (havailable : X.nrepel_noise_profile_available self.lib_instance_1 = true)
    (hkeys1 : self.state.property_noise_profile_1 ≠ self.state.property_noise_profile_size)
    (hkeys2 : self.state.property_noise_profile_1 ≠ self.state.property_averaged_blocks)
    (hkeys3 : self.state.property_noise_profile_size ≠ self.state.property_averaged_blocks)
    (hbytes : sizeof_float * X.nrepel_get_noise_profile_size self.lib_instance_1 ≠
      X.sizeof_NoiseProfileState) :
    ∃ s, save X self = some s ∧ s.status = .LV2_STATE_SUCCESS ∧
      (restore X s.self (retrieve_from s.stored)).status = .LV2_STATE_ERR_NO_PROPERTY ∧
      (restore X s.self (retrieve_from s.stored)).load_calls = [] := by
  have e1 : (self.state.property_noise_profile_1 == self.state.property_noise_profile_size) =
      false := beq_eq_false_iff_ne.mpr hkeys1
  have e2 : (self.state.property_noise_profile_1 == self.state.property_averaged_blocks) =
      false := beq_eq_false_iff_ne.mpr hkeys2
  have e3 : (self.state.property_averaged_blocks == self.state.property_noise_profile_size) =
      false := beq_eq_false_iff_ne.mpr hkeys3.symm
  refine ⟨_, by simp only [save, havailable, hmono]; rfl, rfl, ?_, ?_⟩ <;>
    simp [restore, retrieve_from, List.find?, e1, e2, e3, hbytes]

/-- The size lemma at a concrete input: the mono plugin with the learned five-bin engine; 20 bytes are
stored, 16 are asked for. -/
theorem restore_after_save_size_mismatch_witness :
    ∃ s, save (demo_externals 5 16) { demo_mono_plugin with lib_instance_1 := demo_learned_engine } =
        some s ∧
      (restore (demo_externals 5 16) s.self (retrieve_from s.stored)).status =
        .LV2_STATE_ERR_NO_PROPERTY := by
  obtain ⟨s, hs, -, hstatus, -⟩ :=
    restore_after_save_size_mismatch (demo_externals 5 16)
      { demo_mono_plugin with lib_instance_1 := demo_learned_engine }
      (by decide) (by decide) (by decide) (by decide) (by decide) (by decide)
  exact ⟨s, hs, hstatus⟩

/-- On the stereo plugin, when the first three properties are valid and
`retrieve` has no second profile, `restore` returns
`LV2_STATE_ERR_NO_PROPERTY` after exactly one call of
`nrepel_load_noise_profile`, on `lib_instance_1`, whose result is kept. -/
theorem restore_stereo_partial_load {E : Type} (X : Externals E)
    (self : NoiseRepellentAdaptivePlugin E) (retrieve : LV2_URID → Option Property)
    (fftsize averagedblocks saved : Property)
    (hsize : retrieve self.state.property_noise_profile_size = some fftsize)
    (hsize_type : fftsize.type = self.uris.atom_Int)
    (hblocks : retrieve self.state.property_averaged_blocks = some averagedblocks)
    (hblocks_type : averagedblocks.type = self.uris.atom_Int)
    (hprofile : retrieve self.state.property_noise_profile_1 = some saved)
    (hprofile_size : saved.size = X.sizeof_NoiseProfileState)
    (hprofile_type : saved.type = self.uris.atom_Vector)
    (hstereo : strstr self.plugin_uri NOISEREPELLENT_STEREO_URI = true)
    (hsecond : retrieve self.state.property_noise_profile_2 = none) :
    (restore X self retrieve).status = .LV2_STATE_ERR_NO_PROPERTY ∧
      (restore X self retrieve).load_calls =
        [{ lib_instance := 1
           restored_profile := saved.value.atom_body
           noise_profile_size := fftsize.value.as_uint32
           averaged_blocks := averagedblocks.value.as_uint32 }] ∧
      (restore X self retrieve).self.lib_instance_1 =
        (X.nrepel_load_noise_profile self.lib_instance_1 saved.value.atom_body
          fftsize.value.as_uint32 averagedblocks.value.as_uint32).2 := by
  simp [restore, hsize, hsize_type, hblocks, hblocks_type, hprofile, hprofile_size,
    hprofile_type, hstereo, hsecond]

/-- The partial-load lemma at a concrete input: the stereo plugin, whose second profile key is 0, against a
persisted state without a second profile. -/
theorem restore_stereo_partial_load_witness :
    instantiate (demo_externals 5 16) NOISEREPELLENT_STEREO_URI 44100
        { map := some demo_map } = some demo_stereo_plugin ∧
      demo_stereo_plugin.state.property_noise_profile_2 = 0 ∧
      (restore (demo_externals 5 16) demo_stereo_plugin
        (retrieve_from demo_state_without_second_profile)).status =
          .LV2_STATE_ERR_NO_PROPERTY ∧
      (restore (demo_externals 5 16) demo_stereo_plugin
        (retrieve_from demo_state_without_second_profile)).load_calls.length = 1 := by
  have h :=
    restore_stereo_partial_load (demo_externals 5 16) demo_stereo_plugin
      (retrieve_from demo_state_without_second_profile)
      { key := 8, value := blob_of_uint32 5, size := 4, type := 3, flags := 3 }
      { key := 9, value := blob_of_uint32 9, size := 4, type := 3, flags := 3 }
      { key := 7, value := { as_uint32 := 4, atom_body := [1, 2, 3, 4, 5] }, size := 16,
        type := 5, flags := 3 }
      (by decide) (by decide) (by decide) (by decide) (by decide) (by decide) (by decide)
      (by decide) (by decide)
  refine ⟨rfl, rfl, h.1, ?_⟩
  rw [h.2.1]; rfl

/-! ## Claims on absent arguments and on the state keys -/

/-- C11: `noise_estimation_run` returns false exactly when the estimator or the
`fft_spectrum` argument is absent; in that case the whole state is left as it
was (the counter, every bin of the profile and `noise_spectrum_available`
included); with both present it returns true. -/
theorem C11_run_fails_only_on_absent_arguments {L : Type} (C : Collaborators L)
    (self : Option (NoiseEstimator L)) (fft_spectrum : Option (List ℚ)) :
    ((noise_estimation_run C self fft_spectrum).1 = false ↔
        (self = none ∨ fft_spectrum = none)) ∧
      ((noise_estimation_run C self fft_spectrum).1 = false →
        (noise_estimation_run C self fft_spectrum).2 = self) ∧
      (∀ s f, self = some s → fft_spectrum = some f →
        (noise_estimation_run C self fft_spectrum).1 = true) := by
  cases self with
  | none =>
    cases fft_spectrum with
    | none =>
      exact ⟨⟨fun _ => Or.inl rfl, fun _ => rfl⟩, fun _ => rfl,
        fun _ _ h => Option.noConfusion h⟩
    | some f =>
      exact ⟨⟨fun _ => Or.inl rfl, fun _ => rfl⟩, fun _ => rfl,
        fun _ _ h => Option.noConfusion h⟩
  | some s =>
    cases fft_spectrum with
    | none =>
      exact ⟨⟨fun _ => Or.inr rfl, fun _ => rfl⟩, fun _ => rfl,
        fun _ _ _ h => Option.noConfusion h⟩
    | some f =>
      obtain ⟨s', hrun, -⟩ := call_counter_availability C s f
      rw [hrun]
      refine ⟨⟨fun h => Bool.noConfusion h, ?_⟩, fun h => Bool.noConfusion h,
        fun _ _ _ _ => rfl⟩
      rintro (h | h) <;> exact Option.noConfusion h

/-- C11 at concrete inputs: on the three-bin estimator after one manual block
(counter 1, bins `[0, 4, 9]`), a call without a frame returns false and the
estimator it leaves is the one it was given; a call without an estimator
returns false; a call with both returns true. -/
theorem C11_run_fails_only_on_absent_arguments_witness :
    ∃ s, noise_estimation_run demo_collaborators (some demo_estimator) (some [1, 2, 3, 0]) =
        (true, some s) ∧
      s.noise_profile.noise_profile_blocks_averaged = 1 ∧
      noise_estimation_run demo_collaborators (some s) none = (false, some s) ∧
      (noise_estimation_run demo_collaborators none (some [1, 2, 3, 0])).1 = false := by
  obtain ⟨s, hrun, hcount, -⟩ :=
    call_counter_availability demo_collaborators demo_estimator [1, 2, 3, 0]
  have h := C11_run_fails_only_on_absent_arguments demo_collaborators (some s) none
  have hfalse : (noise_estimation_run demo_collaborators (some s) none).1 = false :=
    h.1.mpr (Or.inr rfl)
  refine ⟨s, hrun, hcount, Prod.ext hfalse (h.2.1 hfalse), ?_⟩
  exact (C11_run_fails_only_on_absent_arguments demo_collaborators none
    (some [1, 2, 3, 0])).1.mpr (Or.inl rfl)

/-- For the stereo URI `map_state` leaves `property_noise_profile_2` as it finds it,
whatever the host's map is: the branch taken maps the three other keys from
`NOISEREPELLENT_URI`. -/
theorem map_state_stereo_keeps_second_key (map : LV2_URID_Map) (state : State) :
    map_state map state NOISEREPELLENT_STEREO_URI =
      { property_noise_profile_1 := map (NOISEREPELLENT_URI ++ "#noiseprofile")
        property_noise_profile_2 := state.property_noise_profile_2
        property_noise_profile_size := map (NOISEREPELLENT_URI ++ "#noiseprofilesize")
        property_averaged_blocks :=
          map (NOISEREPELLENT_URI ++ "#noiseprofileaveragedblocks") } := by
  have h : strcmp_eq NOISEREPELLENT_STEREO_URI NOISEREPELLENT_URI = false := by decide
  simp only [map_state, h]
  rfl

/-- For the mono URI `map_state` assigns both profile keys, from one and the same
URI, so the two keys are equal whatever the host's map is. -/
theorem map_state_mono_same_profile_keys (map : LV2_URID_Map) (state : State) :
    (map_state map state NOISEREPELLENT_URI).property_noise_profile_2 =
        map (NOISEREPELLENT_STEREO_URI ++ "#noiseprofile") ∧
      (map_state map state NOISEREPELLENT_URI).property_noise_profile_1 =
        (map_state map state NOISEREPELLENT_URI).property_noise_profile_2 := by
  have h : strcmp_eq NOISEREPELLENT_URI NOISEREPELLENT_URI = true := by decide
  simp only [map_state, h]
  exact ⟨rfl, rfl⟩

/-- A plugin instantiated with the stereo URI has `property_noise_profile_2 = 0`,
the value `calloc` left, for every host map, rate and engine library. -/
theorem instantiate_stereo_second_key_zero {E : Type} (X : Externals E) (rate : Nat)
    (map : LV2_URID_Map) (p : NoiseRepellentAdaptivePlugin E)
    (h : instantiate X NOISEREPELLENT_STEREO_URI rate { map := some map } = some p) :
    p.state.property_noise_profile_2 = 0 ∧
      p.state.property_noise_profile_1 = map (NOISEREPELLENT_URI ++ "#noiseprofile") := by
  have hs : strstr NOISEREPELLENT_STEREO_URI NOISEREPELLENT_STEREO_URI = true := by decide
  simp only [instantiate, hs, if_true] at h
  cases h1 : X.nrepel_initialize rate with
  | none => rw [h1] at h; exact Option.noConfusion h
  | some e =>
    rw [h1] at h
    have h2 := Option.some.inj h
    rw [← h2]
    show (map_state map _ NOISEREPELLENT_STEREO_URI).property_noise_profile_2 = 0 ∧
      (map_state map _ NOISEREPELLENT_STEREO_URI).property_noise_profile_1 = _
    rw [map_state_stereo_keeps_second_key]
    exact ⟨rfl, rfl⟩

/-- C12 (the code at the failing input): the plugin instantiated with the stereo
URI over `demo_map`, a map that is injective on the URIs of the plugin and
never returns 0, has `property_noise_profile_2 = 0`: `map_state` did not obtain
it from the map. With both engines holding an available five-bin profile,
`save` stores the four properties under the keys 8, 9, 7 and 0, and `retrieve`
is asked for key 0 by `restore`. -/
theorem C12_stereo_second_profile_key_is_not_mapped :
    instantiate (demo_externals 5 16) NOISEREPELLENT_STEREO_URI 44100
        { map := some demo_map } = some demo_stereo_plugin ∧
      (∀ uri, demo_map uri ≠ 0) ∧
      demo_map (NOISEREPELLENT_STEREO_URI ++ "#noiseprofile") = 10 ∧
      demo_map (NOISEREPELLENT_URI ++ "#noiseprofile") = 7 ∧
      demo_stereo_plugin.state.property_noise_profile_1 = 7 ∧
      demo_stereo_plugin.state.property_noise_profile_2 = 0 ∧
      (save (demo_externals 5 16)
          { demo_stereo_plugin with
            lib_instance_1 := demo_learned_engine
            lib_instance_2 := some demo_learned_engine }).map
        (fun s => s.stored.map (fun q => q.key)) = some [8, 9, 7, 0] := by
  refine ⟨rfl, fun uri => Nat.succ_ne_zero _, ?_, ?_, ?_, ?_, ?_⟩ <;> decide

end NoiseRepellent
